import Mathlib

/-!
# Betlang compiler core: a shallow embedding

This file embeds the Betlang tree-walking evaluator
(`src/compiler/bet-eval/src/lib.rs`) and the JavaScript code generator
(`src/compiler/bet-codegen/src/lib.rs`) in Lean 4, and proves or refutes
the specification claims about them.

Modelling conventions:
* Rust `i64` is modelled as `ℤ` (no claim in scope depends on wraparound;
  the one place a cast matters, `n as usize` in `Parallel`, is modelled
  with the explicit `% 2^64`).
* Rust `f64` is modelled as `ℚ`.  Every property proved or refuted here
  is exact-arithmetic robust: the concrete counterexamples use values on
  which `f64` arithmetic is exact.
* `thread_rng()` is modelled as an explicit stream of pending draws
  threaded through evaluation (`Rng` below).
* Fallible evaluation returns an explicit result type; a Rust panic
  (the unguarded `%` by zero) is modelled by the distinguished result
  `Res.abort`, distinct from every `CompileError`.
* The crates `bet-syntax` (AST) and `bet-core` (`ValueEnv`, `CompileError`)
  are not under `src/`; their shapes are modelled from the spec and from
  their uses in `bet-eval`/`bet-codegen` (which are under `src/`).
-/

namespace Betlang

/-- Ternary logic value (`TernaryVal` in `bet-eval`, `TernaryValue` in the
AST; the evaluator maps one onto the other identically, so one type
serves for both here). -/
inductive TernaryVal where
  | tTrue
  | tFalse
  | tUnknown
deriving DecidableEq, Repr

/-- Binary operators of the AST (`BinOp`). -/
inductive BinOp where
  | add | sub | mul | div | mod | pow
  | eq | ne | lt | le | gt | ge
  | and | or | xor
  | concat | cons | append | compose
deriving DecidableEq, Repr

/-- Unary operators of the AST (`UnOp`). -/
inductive UnOp where
  | neg | not | sample
deriving DecidableEq, Repr

/-- Inference methods (`InferMethod`). -/
inductive InferMethod where
  | mcmc | hmc | smc | vi | rejection | importance
deriving DecidableEq, Repr

/-- Literals (`Literal`), used by literal patterns. -/
inductive Literal where
  | unit
  | boolL (b : Bool)
  | ternaryL (t : TernaryVal)
  | intL (i : ℤ)
  | floatL (q : ℚ)
  | stringL (s : String)
deriving DecidableEq, Repr

/-- Patterns (`Pattern`).  The constructor `other` stands for the richer
pattern forms that both the evaluator and the code generator treat with
a catch-all (`_ => ...`). -/
inductive Pattern where
  | wildcard
  | var (name : String)
  | literal (l : Literal)
  | tupleP (ps : List Pattern)
  | other

mutual
/-- The expression AST (`Expr`).  Spans (`Spanned`) are erased: every use
site in the evaluator and code generator goes straight to `.node`.  The
type argument of `Annotate` is dropped (both consumers ignore it). -/
inductive Expr where
  | unit
  | boolE (b : Bool)
  | intE (i : ℤ)
  | floatE (q : ℚ)
  | stringE (s : String)
  | ternaryE (t : TernaryVal)
  | var (name : String)
  | bet (a0 a1 a2 : Expr)
  | weightedBet (v0 w0 v1 w1 v2 w2 : Expr)
  | conditionalBet (cond ifTrue f0 f1 f2 : Expr)
  | letE (pat : Pattern) (value : Expr) (body : Expr) (isRec : Bool)
  | ifE (cond thenB elseB : Expr)
  | binOp (op : BinOp) (l r : Expr)
  | unOp (op : UnOp) (x : Expr)
  | lambda (params : List Pattern) (body : Expr)
  | app (f : Expr) (args : List Expr)
  | sample (d : Expr)
  | tupleE (es : List Expr)
  | listE (es : List Expr)
  | record (fields : List (String × Expr))
  | field (obj : Expr) (name : String)
  | index (obj : Expr) (i : Expr)
  | matchE (scrutinee : Expr) (arms : List (Pattern × Option Expr × Expr))
  | doE (stmts : List DoStmt)
  | observe (d : Expr) (v : Expr)
  | infer (method : InferMethod) (params : List (String × Expr)) (model : Expr)
  | parallel (n : Expr) (body : Expr)
  | annotate (inner : Expr)
  | hole (name : Option String)
  | errorE

/-- `do`-block statements (`DoStatement`). -/
inductive DoStmt where
  | bindS (p : Pattern) (e : Expr)
  | letS (p : Pattern) (e : Expr)
  | exprS (e : Expr)
end

/-- Top-level module items (`Item`).  `LetDef`'s type annotation and
`is_rec` flag are dropped: the JS code generator never reads them. -/
inductive Item where
  | letD (name : String) (params : List Pattern) (body : Expr)
  | typeDef
  | importI (path : List String)
  | exprI (e : Expr)

/-- A module (`Module`): its items in source order (name and span are not
used by the code generator). -/
structure Module where
  items : List Item

/-- Errors (`CompileError` from `bet-core`, modelled from the spec's error
list; the spans are dropped because every construction site in
`bet-eval` passes `span: None`). -/
inductive CompileError where
  | undefinedVariable (name : String)
  | invalidBet
  | typeMismatch (expected found : String)
  | runtime (message : String)
deriving DecidableEq, Repr

/-- Runtime values (`Value` in `bet-eval`).  The `Closure` struct is
inlined (`Arc` erased); its environment is the snapshot list of
bindings. -/
inductive Value where
  | unit
  | bool (b : Bool)
  | ternary (t : TernaryVal)
  | int (i : ℤ)
  | float (q : ℚ)
  | string (s : String)
  | list (vs : List Value)
  | tuple (vs : List Value)
  | closure (params : List String) (body : Expr) (env : List (String × Value))

/-- Modelled from the spec: `ValueEnv` (from `bet-core`, not under
`src/`) is "a stack of frames mapping variable names to values" with
innermost-first lookup.  The evaluator only ever calls `bind`, `lookup`
and `clone` on it, so it is modelled as a list of bindings searched
front-first: `bind` prepends, `clone` is structural copy. -/
abbrev Env := List (String × Value)

/-- `ValueEnv::lookup`: innermost binding first. -/
def lookupEnv (env : Env) (name : String) : Option Value :=
  match env with
  | [] => none
  | (k, v) :: rest => if k = name then some v else lookupEnv rest name

/-- `ValueEnv::bind`: add a binding, shadowing earlier ones. -/
def bindEnv (env : Env) (name : String) (v : Value) : Env :=
  (name, v) :: env

/-- The ambient random source (`thread_rng()`), modelled as the explicit
stream of pending draws: `choices` feeds `gen_range(0..3)` and
`uniforms` feeds `gen::<f64>()` (values in `[0,1)`).  Drawing from an
exhausted stream yields a default; theorems always supply enough
entropy for the evaluations they talk about. -/
structure Rng where
  choices : List (Fin 3)
  uniforms : List ℚ
deriving DecidableEq

/-- Draw for `thread_rng().gen_range(0..3)`. -/
def drawChoice (r : Rng) : Fin 3 × Rng :=
  match r.choices with
  | c :: cs => (c, ⟨cs, r.uniforms⟩)
  | [] => (0, r)

/-- Draw for `thread_rng().gen::<f64>()`. -/
def drawUniform (r : Rng) : ℚ × Rng :=
  match r.uniforms with
  | u :: us => (u, ⟨r.choices, us⟩)
  | [] => (0, r)

/-- Outcome of one evaluation step.  `timeout` is the fuel artifact of
the embedding (the Rust recursion has no fuel); `abort` models a Rust
panic — the only panic reachable in the embedded fragment is `%` by
zero in `eval_binop`. -/
inductive Res where
  | timeout
  | abort
  | err (e : CompileError)
  | ok (v : Value)

/-- `is_truthy` (bet-eval, lines 325–334), arm for arm: note that the
`Ternary(True)` arm is the only ternary arm, so `Ternary(False)` and
`Ternary(Unknown)` fall to the final catch-all. -/
def is_truthy (val : Value) : Bool :=
  match val with
  | .bool b => b
  | .int i => i ≠ 0
  | .float f => f ≠ 0
  | .ternary .tTrue => true
  | .unit => false
  | _ => true

/-- The weight coercion inside `eval_weighted_bet` (lines 190–194):
Float passes through, Int is cast, anything else becomes `1.0`. -/
def weightOf (v : Value) : ℚ :=
  match v with
  | .float f => f
  | .int i => (i : ℚ)
  | _ => 1

/-- `pattern_name` (bet-eval, lines 366–372). -/
def pattern_name (pat : Pattern) : String :=
  match pat with
  | .var s => s
  | .wildcard => "_"
  | _ => "_"

mutual
/-- Best-effort rendering of Rust's `{:?}` (derived `Debug`) for
`Value`, used only to build runtime error message strings.  Floats and
closures are approximated (no claim inspects those messages). -/
def debugValue (v : Value) : String :=
  match v with
  | .unit => "Unit"
  | .bool b => "Bool(" ++ (if b then "true" else "false") ++ ")"
  | .ternary .tTrue => "Ternary(True)"
  | .ternary .tFalse => "Ternary(False)"
  | .ternary .tUnknown => "Ternary(Unknown)"
  | .int i => "Int(" ++ toString i ++ ")"
  | .float q => "Float(" ++ toString q ++ ")"
  | .string s => "String(\"" ++ s ++ "\")"
  | .list vs => "List([" ++ debugValues vs ++ "])"
  | .tuple vs => "Tuple([" ++ debugValues vs ++ "])"
  | .closure _ _ _ => "Closure(..)"

/-- Comma-separated `Debug` rendering of a list of values. -/
def debugValues (vs : List Value) : String :=
  match vs with
  | [] => ""
  | [v] => debugValue v
  | v :: rest => debugValue v ++ ", " ++ debugValues rest
end

/-- Rust `{:?}` for `BinOp`. -/
def debugBinOp (op : BinOp) : String :=
  match op with
  | .add => "Add" | .sub => "Sub" | .mul => "Mul" | .div => "Div"
  | .mod => "Mod" | .pow => "Pow"
  | .eq => "Eq" | .ne => "Ne" | .lt => "Lt" | .le => "Le"
  | .gt => "Gt" | .ge => "Ge"
  | .and => "And" | .or => "Or" | .xor => "Xor"
  | .concat => "Concat" | .cons => "Cons" | .append => "Append"
  | .compose => "Compose"

/-- Rust `{:?}` for `UnOp`. -/
def debugUnOp (op : UnOp) : String :=
  match op with
  | .neg => "Neg" | .not => "Not" | .sample => "Sample"

/-- The catch-all error message of `eval_binop`. -/
def unsupportedBinMsg (op : BinOp) (lhs rhs : Value) : String :=
  "Unsupported operation " ++ debugBinOp op ++ " on " ++ debugValue lhs
    ++ " and " ++ debugValue rhs

/-- The catch-all error message of `eval_unop`. -/
def unsupportedUnMsg (op : UnOp) (v : Value) : String :=
  "Unsupported unary operation " ++ debugUnOp op ++ " on " ++ debugValue v

/-- `eval_binop` (bet-eval, lines 232–302), arm for arm and in the
source's match order.  The result is wrapped in `Option`: `none` models
the Rust panic of `a % b` with `b = 0` (the `Mod` arm has no zero
guard, unlike `Div`); every other arm is `some`.  Rust's `i64` `/` and
`%` truncate toward zero, hence `Int.tdiv` / `Int.tmod`. -/
def eval_binop (op : BinOp) (lhs rhs : Value) :
    Option (Except CompileError Value) :=
  match op, lhs, rhs with
  -- Integer arithmetic
  | .add, .int a, .int b => some (.ok (.int (a + b)))
  | .sub, .int a, .int b => some (.ok (.int (a - b)))
  | .mul, .int a, .int b => some (.ok (.int (a * b)))
  | .div, .int a, .int b =>
      if b = 0 then
        some (.error (.runtime "Division by zero"))
      else
        some (.ok (.int (a.tdiv b)))
  | .mod, .int a, .int b =>
      if b = 0 then none
      else some (.ok (.int (a.tmod b)))
  -- Float arithmetic
  | .add, .float a, .float b => some (.ok (.float (a + b)))
  | .sub, .float a, .float b => some (.ok (.float (a - b)))
  | .mul, .float a, .float b => some (.ok (.float (a * b)))
  | .div, .float a, .float b => some (.ok (.float (a / b)))
  -- Mixed numeric
  | .add, .int a, .float b => some (.ok (.float ((a : ℚ) + b)))
  | .add, .float a, .int b => some (.ok (.float (a + (b : ℚ))))
  | .mul, .int a, .float b => some (.ok (.float ((a : ℚ) * b)))
  | .mul, .float a, .int b => some (.ok (.float (a * (b : ℚ))))
  -- Comparisons
  | .eq, .int a, .int b => some (.ok (.bool (a = b)))
  | .ne, .int a, .int b => some (.ok (.bool (a ≠ b)))
  | .lt, .int a, .int b => some (.ok (.bool (a < b)))
  | .le, .int a, .int b => some (.ok (.bool (a ≤ b)))
  | .gt, .int a, .int b => some (.ok (.bool (a > b)))
  | .ge, .int a, .int b => some (.ok (.bool (a ≥ b)))
  | .eq, .float a, .float b => some (.ok (.bool (a = b)))
  | .lt, .float a, .float b => some (.ok (.bool (a < b)))
  | .le, .float a, .float b => some (.ok (.bool (a ≤ b)))
  | .gt, .float a, .float b => some (.ok (.bool (a > b)))
  | .ge, .float a, .float b => some (.ok (.bool (a ≥ b)))
  -- Boolean logic
  | .and, .bool a, .bool b => some (.ok (.bool (a && b)))
  | .or, .bool a, .bool b => some (.ok (.bool (a || b)))
  -- String concatenation
  | .concat, .string a, .string b => some (.ok (.string (a ++ b)))
  -- List operations
  | .cons, v, .list l => some (.ok (.list (v :: l)))
  | .append, .list a, .list b => some (.ok (.list (a ++ b)))
  | _, _, _ => some (.error (.runtime (unsupportedBinMsg op lhs rhs)))

/-- `eval_unop` (bet-eval, lines 304–319). -/
def eval_unop (op : UnOp) (val : Value) : Except CompileError Value :=
  match op, val with
  | .neg, .int i => .ok (.int (-i))
  | .neg, .float f => .ok (.float (-f))
  | .not, .bool b => .ok (.bool (!b))
  | .not, .ternary t =>
      .ok (.ternary (match t with
        | .tTrue => .tFalse
        | .tFalse => .tTrue
        | .tUnknown => .tUnknown))
  | _, _ => .error (.runtime (unsupportedUnMsg op val))

mutual
/-- `bind_pattern` (bet-eval, lines 336–364).  The environment is
threaded even on error because the Rust version mutates `env` in place:
a tuple pattern that fails midway leaves its earlier bindings behind. -/
def bind_pattern (pat : Pattern) (val : Value) (env : Env) :
    Except CompileError Unit × Env :=
  match pat, val with
  | .var s, v => (.ok (), bindEnv env s v)
  | .wildcard, _ => (.ok (), env)
  | .tupleP ps, .tuple vs =>
      if ps.length ≠ vs.length then
        (.error (.runtime "Tuple pattern length mismatch"), env)
      else
        bind_patterns ps vs env
  | .tupleP _, _ => (.error (.runtime "Expected tuple value"), env)
  | _, _ => (.ok (), env)

/-- The binding loop of the tuple arm of `bind_pattern`. -/
def bind_patterns (ps : List Pattern) (vs : List Value) (env : Env) :
    Except CompileError Unit × Env :=
  match ps, vs with
  | p :: ps', v :: vs' =>
      match bind_pattern p v env with
      | (.ok _, env') => bind_patterns ps' vs' env'
      | r => r
  | _, _ => (.ok (), env)
end

/-- Outcome of evaluating a list of expressions left-to-right (the
`collect::<Result<_,_>>()` idiom and the argument loop of `App`):
either all values, or the first failure. -/
inductive SeqOut where
  | fail (r : Res)
  | vals (vs : List Value)

/-- Left-to-right evaluation of a list of expressions, stopping at the
first failure (used by `Tuple`, `List` and the argument loop of
`App`). -/
def evalSeq (ev : Expr → Env → Rng → Res × Env × Rng) :
    List Expr → Env → Rng → SeqOut × Env × Rng
  | [], env, rng => (.vals [], env, rng)
  | e :: rest, env, rng =>
      match ev e env rng with
      | (.ok v, env, rng) =>
          match evalSeq ev rest env rng with
          | (.vals vs, env, rng) => (.vals (v :: vs), env, rng)
          | f => f
      | (r, env, rng) => (.fail r, env, rng)

/-- `eval_bet` (bet-eval, lines 173–182): evaluate the three
alternatives eagerly left-to-right, then draw an index uniformly from
`{0,1,2}` and return that result. -/
def eval_bet (ev : Expr → Env → Rng → Res × Env × Rng)
    (a0 a1 a2 : Expr) (env : Env) (rng : Rng) : Res × Env × Rng :=
  match ev a0 env rng with
  | (.ok v0, env, rng) =>
      match ev a1 env rng with
      | (.ok v1, env, rng) =>
          match ev a2 env rng with
          | (.ok v2, env, rng) =>
              let (idx, rng) := drawChoice rng
              (.ok (match idx.val with | 0 => v0 | 1 => v1 | _ => v2), env, rng)
          | other => other
      | other => other
  | other => other

/-- `eval_weighted_bet` (bet-eval, lines 184–208): evaluate the three
(value, weight) pairs eagerly and interleaved (value then weight for
each pair), coerce each weight (`weightOf`), sum them, scale one
uniform draw by the total, and return the first alternative whose
cumulative weight strictly exceeds the scaled draw, falling back to the
last alternative. -/
def eval_weighted_bet (ev : Expr → Env → Rng → Res × Env × Rng)
    (v0e w0e v1e w1e v2e w2e : Expr) (env : Env) (rng : Rng) :
    Res × Env × Rng :=
  match ev v0e env rng with
  | (.ok v0, env, rng) =>
    match ev w0e env rng with
    | (.ok u0, env, rng) =>
      match ev v1e env rng with
      | (.ok v1, env, rng) =>
        match ev w1e env rng with
        | (.ok u1, env, rng) =>
          match ev v2e env rng with
          | (.ok v2, env, rng) =>
            match ev w2e env rng with
            | (.ok u2, env, rng) =>
                let w0 := weightOf u0
                let w1 := weightOf u1
                let w2 := weightOf u2
                let total := w0 + w1 + w2
                let (u, rng) := drawUniform rng
                let r := u * total
                if r < w0 then (.ok v0, env, rng)
                else if r < w0 + w1 then (.ok v1, env, rng)
                else if r < w0 + w1 + w2 then (.ok v2, env, rng)
                else (.ok v2, env, rng)
            | other => other
          | other => other
        | other => other
      | other => other
    | other => other
  | other => other

/-- `eval_conditional_bet` (bet-eval, lines 210–226). -/
def eval_conditional_bet (ev : Expr → Env → Rng → Res × Env × Rng)
    (cond ifTrue f0 f1 f2 : Expr) (env : Env) (rng : Rng) :
    Res × Env × Rng :=
  match ev cond env rng with
  | (.ok cv, env, rng) =>
      if is_truthy cv then ev ifTrue env rng
      else
        match ev f0 env rng with
        | (.ok v0, env, rng) =>
            match ev f1 env rng with
            | (.ok v1, env, rng) =>
                match ev f2 env rng with
                | (.ok v2, env, rng) =>
                    let (idx, rng) := drawChoice rng
                    (.ok (match idx.val with | 0 => v0 | 1 => v1 | _ => v2),
                      env, rng)
                | other => other
            | other => other
        | other => other
  | other => other

/-- The parameter-binding loop of `apply`: bind each (name, value)
pair in order into the environment. -/
def bindAll (env : Env) (pairs : List (String × Value)) : Env :=
  pairs.foldl (fun e pa => bindEnv e pa.1 pa.2) env

/-- `apply` (bet-eval, lines 374–388): clone the closure's captured
environment, bind the zipped parameter/argument pairs in order (no
arity check: `zip` silently drops the unmatched tail on either side),
and evaluate the body in that environment.  The caller's environment is
untouched; the random source is ambient, hence threaded. -/
def apply (ev : Expr → Env → Rng → Res × Env × Rng)
    (func : Value) (args : List Value) (rng : Rng) : Res × Rng :=
  match func with
  | .closure ps body cenv =>
      let newEnv := bindAll cenv (ps.zip args)
      let (res, _, rng') := ev body newEnv rng
      (res, rng')
  | _ => (.err (.runtime ("Cannot apply non-function: " ++ debugValue func)),
          rng)

/-- The iteration loop of the `Parallel` arm (bet-eval, lines 154–157):
run the body `k` times sequentially in the *same* threaded environment,
collecting results (`acc` holds the results already produced, most
recent first). -/
def parallelLoop (ev : Env → Rng → Res × Env × Rng) :
    Nat → Env → Rng → List Value → Res × Env × Rng
  | 0, env, rng, acc => (.ok (.list acc.reverse), env, rng)
  | k + 1, env, rng, acc =>
      match ev env rng with
      | (.ok v, env, rng) => parallelLoop ev k env rng (v :: acc)
      | other => other

/-- `eval` (bet-eval, lines 44–167), arm for arm.  Fuel (`Nat`) bounds
the recursion depth; `Res.timeout` is returned when it runs out (the
Rust original recurses without bound).  The environment is threaded
in/out to model the `&mut ValueEnv` parameter, and the random source
models `thread_rng()`.  Note the final catch-all: `Match`, `Record`,
`Field`, `Index`, `Do`, `Observe`, `Infer`, `Hole` and `Error` nodes
all evaluate to `Unit` without touching their children. -/
def eval : Nat → Expr → Env → Rng → Res × Env × Rng
  | 0, _, env, rng => (.timeout, env, rng)
  | n + 1, e, env, rng =>
    match e with
    -- Literals
    | .unit => (.ok .unit, env, rng)
    | .boolE b => (.ok (.bool b), env, rng)
    | .intE i => (.ok (.int i), env, rng)
    | .floatE f => (.ok (.float f), env, rng)
    | .stringE s => (.ok (.string s), env, rng)
    | .ternaryE t => (.ok (.ternary t), env, rng)
    -- Variables
    | .var name =>
        match lookupEnv env name with
        | some v => (.ok v, env, rng)
        | none => (.err (.undefinedVariable name), env, rng)
    -- Bet expressions
    | .bet a0 a1 a2 =>
        eval_bet (fun e' env' rng' => eval n e' env' rng') a0 a1 a2 env rng
    | .weightedBet v0 w0 v1 w1 v2 w2 =>
        eval_weighted_bet (fun e' env' rng' => eval n e' env' rng')
          v0 w0 v1 w1 v2 w2 env rng
    | .conditionalBet c t f0 f1 f2 =>
        eval_conditional_bet (fun e' env' rng' => eval n e' env' rng')
          c t f0 f1 f2 env rng
    -- Let binding: evaluate the value, bind the pattern into the
    -- current environment (no scope is pushed and nothing is popped
    -- afterwards), evaluate the body.
    | .letE pat value body _ =>
        match eval n value env rng with
        | (.ok v, env, rng) =>
            match bind_pattern pat v env with
            | (.ok _, env) => eval n body env rng
            | (.error ce, env) => (.err ce, env, rng)
        | other => other
    -- If
    | .ifE c t f =>
        match eval n c env rng with
        | (.ok cv, env, rng) =>
            if is_truthy cv then eval n t env rng else eval n f env rng
        | other => other
    -- Binary operators
    | .binOp op l r =>
        match eval n l env rng with
        | (.ok lv, env, rng) =>
            match eval n r env rng with
            | (.ok rv, env, rng) =>
                match eval_binop op lv rv with
                | some (.ok v) => (.ok v, env, rng)
                | some (.error ce) => (.err ce, env, rng)
                | none => (.abort, env, rng)
            | other => other
        | other => other
    -- Unary operators
    | .unOp op x =>
        match eval n x env rng with
        | (.ok v, env, rng) =>
            match eval_unop op v with
            | .ok v' => (.ok v', env, rng)
            | .error ce => (.err ce, env, rng)
        | other => other
    -- Lambda: capture the environment snapshot
    | .lambda params body =>
        (.ok (.closure (params.map pattern_name) body env), env, rng)
    -- Application
    | .app f args =>
        match eval n f env rng with
        | (.ok fv, env, rng) =>
            match evalSeq (fun e' env' rng' => eval n e' env' rng')
                args env rng with
            | (.vals argVals, env, rng) =>
                let (res, rng) :=
                  apply (fun e' env' rng' => eval n e' env' rng')
                    fv argVals rng
                (res, env, rng)
            | (.fail r, env, rng) => (r, env, rng)
        | other => other
    -- Sample: distributions not fully modelled, return the value
    | .sample d => eval n d env rng
    -- Tuples and Lists
    | .tupleE es =>
        match evalSeq (fun e' env' rng' => eval n e' env' rng')
            es env rng with
        | (.vals vs, env, rng) => (.ok (.tuple vs), env, rng)
        | (.fail r, env, rng) => (r, env, rng)
    | .listE es =>
        match evalSeq (fun e' env' rng' => eval n e' env' rng')
            es env rng with
        | (.vals vs, env, rng) => (.ok (.list vs), env, rng)
        | (.fail r, env, rng) => (r, env, rng)
    -- Parallel: evaluate the count, then run the body that many times
    -- in the current environment (`n as usize` on `i64` wraps mod 2^64)
    | .parallel nE body =>
        match eval n nE env rng with
        | (.ok (.int k), env, rng) =>
            parallelLoop (fun env' rng' => eval n body env' rng')
              ((k.emod (2 ^ 64)).toNat) env rng []
        | (.ok _, env, rng) =>
            (.err (.runtime "parallel count must be an integer"), env, rng)
        | other => other
    -- Type annotation: transparent
    | .annotate inner => eval n inner env rng
    -- Catch-all for unimplemented nodes
    | _ => (.ok .unit, env, rng)

-- ===========================================================================
-- JavaScript code generator (src/compiler/bet-codegen/src/lib.rs)
-- ===========================================================================

/-- Code generation target (`Target`). -/
inductive Target where
  | javaScript
  | llvm
  | beam
deriving DecidableEq, Repr

/-- Generated code output (`CodeOutput`). -/
structure CodeOutput where
  target : Target
  code : String
  sourceMap : Option String

/-- JavaScript codegen context (`JsContext`). -/
structure JsCtx where
  indent : Nat
  tempCounter : Nat
  preambleEmitted : Bool
deriving DecidableEq, Repr

/-- `JsContext::fresh_var`. -/
def freshVar (ctx : JsCtx) : String × JsCtx :=
  ("__t" ++ toString ctx.tempCounter,
   { ctx with tempCounter := ctx.tempCounter + 1 })

/-- `JsContext::indent_str`. -/
def indentStr (ctx : JsCtx) : String :=
  String.join (List.replicate ctx.indent "  ")

/-- Rust `str::replace(char, &str)`: replace every occurrence of the
character `c` by `r` (structurally, so closed instances compute). -/
def replaceChar (s : String) (c : Char) (r : String) : String :=
  String.join (s.data.map fun ch => if ch = c then r else String.singleton ch)

/-- `is_js_reserved` (bet-codegen, lines 1154-1164). -/
def isJsReserved (name : String) : Bool :=
  match name with
  | "break" | "case" | "catch" | "class" | "const" | "continue"
  | "debugger" | "default" | "delete" | "do" | "else"
  | "export" | "extends" | "finally" | "for" | "function"
  | "if" | "import" | "in" | "instanceof" | "let" | "new"
  | "return" | "super" | "switch" | "this" | "throw" | "try"
  | "typeof" | "var" | "void" | "while" | "with" | "yield" => true
  | _ => false

/-- `sanitize_js_ident` (bet-codegen, lines 1146-1152): reserved words
get a leading underscore; otherwise hyphens become underscores and
primes become `$prime`. -/
def sanitizeJsIdent (name : String) : String :=
  if isJsReserved name then "_" ++ name
  else replaceChar (replaceChar name '-' "_") '\x27' "$prime"

/-- Stand-in for Rust\x27s `f64::to_string`.  The payload of `Float` is a
rational in this embedding, so the digits differ from Rust\x27s shortest
round-trip printing; no verified property depends on them. -/
def floatToString (q : ℚ) : String :=
  if q.den = 1 then toString q.num else toString q

/-- `emit_js_pattern_param` (bet-codegen, lines 484-490).  Note: lambda
and function parameters are *not* sanitized. -/
def emit_js_pattern_param (pat : Pattern) : String :=
  match pat with
  | .var s => s
  | .wildcard => "_"
  | _ => "_"

/-- The parameter-list loop of `Lambda` and function items. -/
def patternParams (ps : List Pattern) : String :=
  String.intercalate ", " (ps.map emit_js_pattern_param)

/-- `emit_js_let_pattern` (bet-codegen, lines 1074-1101); its `ctx`
parameter is unused in the source and dropped here. -/
def emit_js_let_pattern (pat : Pattern) : String :=
  match pat with
  | .var s => "const " ++ sanitizeJsIdent s
  | .wildcard => "const _"
  | .tupleP elems =>
      "const [" ++
        String.intercalate ", " (elems.map fun e =>
          match e with
          | .var s => sanitizeJsIdent s
          | .wildcard => "_"
          | _ => "_") ++ "]"
  | _ => "const _"

/-- The literal rendering inside `emit_js_pattern_match` (its string arm
escapes only backslash and quote, unlike `Expr::String`). -/
def litToJs (l : Literal) : String :=
  match l with
  | .intL i => toString i
  | .floatL f => floatToString f
  | .stringL s =>
      "\"" ++ replaceChar (replaceChar s '\\' "\\\\") '"' "\\\"" ++ "\""
  | .boolL b => if b then "true" else "false"
  | .ternaryL .tTrue => "1"
  | .ternaryL .tFalse => "-1"
  | .ternaryL .tUnknown => "0"
  | .unit => "null"

/-- `emit_js_pattern_match` (bet-codegen, lines 1103-1129). -/
def emit_js_pattern_match (scrutinee : String) (pat : Pattern) : String :=
  match pat with
  | .wildcard => "true"
  | .var _ => "true"
  | .literal l => scrutinee ++ " === " ++ litToJs l
  | _ => "true"

/-- `emit_js_pattern_bindings` (bet-codegen, lines 1131-1142). -/
def emit_js_pattern_bindings (scrutinee : String) (pat : Pattern) : String :=
  match pat with
  | .var s => "const " ++ sanitizeJsIdent s ++ " = " ++ scrutinee ++ "; "
  | _ => ""

/-- The distribution/constructor special cases at the top of the
`Expr::App` arm (bet-codegen, lines 571-647): known names map to the
opening text of the corresponding runtime call. -/
def distCall (name : String) : Option String :=
  match name with
  | "normal" | "Normal" => some "__bet_dist_normal("
  | "uniform" | "Uniform" => some "__bet_dist_uniform("
  | "bernoulli" | "Bernoulli" => some "__bet_dist_bernoulli("
  | "beta" | "Beta" => some "__bet_dist_beta("
  | "exponential" | "Exponential" => some "__bet_dist_exponential("
  | "poisson" | "Poisson" => some "__bet_dist_poisson("
  | "monte_carlo" => some "__bet_monte_carlo("
  | "markov_chain" => some "__bet_markov_chain("
  | "markov_step" => some "__bet_markov_step("
  | "uncertain" => some "__BetUncertain.from("
  | "mc_mean" => some "__bet_mc_mean("
  | "mc_variance" => some "__bet_mc_variance("
  | _ => none

/-- The method-name strings of the `Expr::Infer` arm. -/
def inferMethodStr (m : InferMethod) : String :=
  match m with
  | .mcmc => "mcmc"
  | .hmc => "hmc"
  | .smc => "smc"
  | .vi => "vi"
  | .rejection => "rejection"
  | .importance => "importance"

/-- The JavaScript runtime preamble (`js_preamble`, bet-codegen lines
100-394): the exact raw-string contents, transcribed line by line. -/
def jsPreamble : String :=
  "// === Betlang Runtime Preamble ===\n"
    ++ "\n"
    ++ "// Uniform ternary choice among exactly 3 alternatives\n"
    ++ "function __bet_uniform(a, b, c) \x7b\n"
    ++ "  const r = Math.random();\n"
    ++ "  if (r < 1/3) return a;\n"
    ++ "  if (r < 2/3) return b;\n"
    ++ "  return c;\n"
    ++ "\x7d\n"
    ++ "\n"
    ++ "// Weighted ternary choice (weights normalised internally)\n"
    ++ "function __bet_weighted(alts, weights) \x7b\n"
    ++ "  const total = weights.reduce((s, w) => s + w, 0);\n"
    ++ "  const r = Math.random() * total;\n"
    ++ "  let cumul = 0;\n"
    ++ "  for (let i = 0; i < alts.length; i++) \x7b\n"
    ++ "    cumul += weights[i];\n"
    ++ "    if (r < cumul) return alts[i];\n"
    ++ "  \x7d\n"
    ++ "  return alts[alts.length - 1];\n"
    ++ "\x7d\n"
    ++ "\n"
    ++ "// \x2d\x2d- Distribution objects \x2d\x2d-\n"
    ++ "\n"
    ++ "function __bet_dist_normal(mu, sigma) \x7b\n"
    ++ "  return \x7b\n"
    ++ "    name: \x27normal\x27,\n"
    ++ "    params: \x7b mu, sigma \x7d,\n"
    ++ "    sample() \x7b\n"
    ++ "      // Box-Muller transform\n"
    ++ "      const u1 = Math.random();\n"
    ++ "      const u2 = Math.random();\n"
    ++ "      const z = Math.sqrt(-2 * Math.log(u1)) * Math.cos(2 * Math.PI * u2);\n"
    ++ "      return mu + sigma * z;\n"
    ++ "    \x7d,\n"
    ++ "    logpdf(x) \x7b\n"
    ++ "      const z = (x - mu) / sigma;\n"
    ++ "      return -0.5 * Math.log(2 * Math.PI) - Math.log(sigma) - 0.5 * z * z;\n"
    ++ "    \x7d\n"
    ++ "  \x7d;\n"
    ++ "\x7d\n"
    ++ "\n"
    ++ "function __bet_dist_uniform(lo, hi) \x7b\n"
    ++ "  return \x7b\n"
    ++ "    name: \x27uniform\x27,\n"
    ++ "    params: \x7b lo, hi \x7d,\n"
    ++ "    sample() \x7b return lo + Math.random() * (hi - lo); \x7d,\n"
    ++ "    logpdf(x) \x7b return (x >= lo && x <= hi) ? -Math.log(hi - lo) : -Infinity; \x7d\n"
    ++ "  \x7d;\n"
    ++ "\x7d\n"
    ++ "\n"
    ++ "function __bet_dist_bernoulli(p) \x7b\n"
    ++ "  return \x7b\n"
    ++ "    name: \x27bernoulli\x27,\n"
    ++ "    params: \x7b p \x7d,\n"
    ++ "    sample() \x7b return Math.random() < p ? 1 : 0; \x7d,\n"
    ++ "    logpdf(x) \x7b return x === 1 ? Math.log(p) : Math.log(1 - p); \x7d\n"
    ++ "  \x7d;\n"
    ++ "\x7d\n"
    ++ "\n"
    ++ "function __bet_dist_beta(alpha, beta_param) \x7b\n"
    ++ "  return \x7b\n"
    ++ "    name: \x27beta\x27,\n"
    ++ "    params: \x7b alpha, beta: beta_param \x7d,\n"
    ++ "    sample() \x7b\n"
    ++ "      // Joehnk\x27s algorithm for small parameters; otherwise gamma ratio\n"
    ++ "      function gamma_sample(shape) \x7b\n"
    ++ "        if (shape < 1) \x7b\n"
    ++ "          return gamma_sample(shape + 1) * Math.pow(Math.random(), 1 / shape);\n"
    ++ "        \x7d\n"
    ++ "        const d = shape - 1/3;\n"
    ++ "        const c = 1 / Math.sqrt(9 * d);\n"
    ++ "        while (true) \x7b\n"
    ++ "          let x, v;\n"
    ++ "          do \x7b\n"
    ++ "            const u1 = Math.random();\n"
    ++ "            const u2 = Math.random();\n"
    ++ "            x = Math.sqrt(-2 * Math.log(u1)) * Math.cos(2 * Math.PI * u2);\n"
    ++ "            v = Math.pow(1 + c * x, 3);\n"
    ++ "          \x7d while (v <= 0);\n"
    ++ "          const u = Math.random();\n"
    ++ "          if (u < 1 - 0.0331 * x * x * x * x) return d * v;\n"
    ++ "          if (Math.log(u) < 0.5 * x * x + d * (1 - v + Math.log(v))) return d * v;\n"
    ++ "        \x7d\n"
    ++ "      \x7d\n"
    ++ "      const ga = gamma_sample(alpha);\n"
    ++ "      const gb = gamma_sample(beta_param);\n"
    ++ "      return ga / (ga + gb);\n"
    ++ "    \x7d,\n"
    ++ "    logpdf(x) \x7b\n"
    ++ "      if (x <= 0 || x >= 1) return -Infinity;\n"
    ++ "      function lnGamma(z) \x7b\n"
    ++ "        const c = [76.18009172947146,-86.50532032941677,24.01409824083091,\n"
    ++ "          -1.231739572450155,0.001208650973866179,-0.000005395239384953];\n"
    ++ "        let s = 1.000000000190015;\n"
    ++ "        for (let i = 0; i < 6; i++) s += c[i] / (z + i + 1);\n"
    ++ "        return Math.log(2.5066282746310005 * s / z) + (z + 0.5) * Math.log(z + 5.5) - (z + 5.5);\n"
    ++ "      \x7d\n"
    ++ "      return (alpha - 1) * Math.log(x) + (beta_param - 1) * Math.log(1 - x)\n"
    ++ "        + lnGamma(alpha + beta_param) - lnGamma(alpha) - lnGamma(beta_param);\n"
    ++ "    \x7d\n"
    ++ "  \x7d;\n"
    ++ "\x7d\n"
    ++ "\n"
    ++ "function __bet_dist_exponential(rate) \x7b\n"
    ++ "  return \x7b\n"
    ++ "    name: \x27exponential\x27,\n"
    ++ "    params: \x7b rate \x7d,\n"
    ++ "    sample() \x7b return -Math.log(Math.random()) / rate; \x7d,\n"
    ++ "    logpdf(x) \x7b return x >= 0 ? Math.log(rate) - rate * x : -Infinity; \x7d\n"
    ++ "  \x7d;\n"
    ++ "\x7d\n"
    ++ "\n"
    ++ "function __bet_dist_poisson(lambda) \x7b\n"
    ++ "  return \x7b\n"
    ++ "    name: \x27poisson\x27,\n"
    ++ "    params: \x7b lambda \x7d,\n"
    ++ "    sample() \x7b\n"
    ++ "      const L = Math.exp(-lambda);\n"
    ++ "      let k = 0, p = 1;\n"
    ++ "      do \x7b k++; p *= Math.random(); \x7d while (p > L);\n"
    ++ "      return k - 1;\n"
    ++ "    \x7d,\n"
    ++ "    logpdf(x) \x7b\n"
    ++ "      if (x < 0 || x !== Math.floor(x)) return -Infinity;\n"
    ++ "      let lf = 0;\n"
    ++ "      for (let i = 2; i <= x; i++) lf += Math.log(i);\n"
    ++ "      return x * Math.log(lambda) - lambda - lf;\n"
    ++ "    \x7d\n"
    ++ "  \x7d;\n"
    ++ "\x7d\n"
    ++ "\n"
    ++ "// Sample from a distribution object\n"
    ++ "function __bet_sample(dist) \x7b\n"
    ++ "  if (dist && typeof dist.sample === \x27function\x27) return dist.sample();\n"
    ++ "  throw new Error(\x27Cannot sample from non-distribution: \x27 + JSON.stringify(dist));\n"
    ++ "\x7d\n"
    ++ "\n"
    ++ "// Observe / condition: returns log-probability (for use in inference)\n"
    ++ "function __bet_observe(dist, value) \x7b\n"
    ++ "  if (dist && typeof dist.logpdf === \x27function\x27) return dist.logpdf(value);\n"
    ++ "  throw new Error(\x27Cannot observe on non-distribution\x27);\n"
    ++ "\x7d\n"
    ++ "\n"
    ++ "// \x2d\x2d- Inference \x2d\x2d-\n"
    ++ "\n"
    ++ "function __bet_infer(method, params, modelFn) \x7b\n"
    ++ "  const n = params.samples || params.n || 1000;\n"
    ++ "  switch (method) \x7b\n"
    ++ "    case \x27rejection\x27: return __bet_infer_rejection(modelFn, n);\n"
    ++ "    case \x27importance\x27: return __bet_infer_importance(modelFn, n);\n"
    ++ "    case \x27mcmc\x27: return __bet_infer_mcmc(modelFn, n);\n"
    ++ "    default: return __bet_infer_rejection(modelFn, n);\n"
    ++ "  \x7d\n"
    ++ "\x7d\n"
    ++ "\n"
    ++ "function __bet_infer_rejection(modelFn, n) \x7b\n"
    ++ "  const samples = [];\n"
    ++ "  let attempts = 0;\n"
    ++ "  const maxAttempts = n * 100;\n"
    ++ "  while (samples.length < n && attempts < maxAttempts) \x7b\n"
    ++ "    attempts++;\n"
    ++ "    const result = modelFn();\n"
    ++ "    if (result !== undefined && result !== null) samples.push(result);\n"
    ++ "  \x7d\n"
    ++ "  return samples;\n"
    ++ "\x7d\n"
    ++ "\n"
    ++ "function __bet_infer_importance(modelFn, n) \x7b\n"
    ++ "  const samples = [];\n"
    ++ "  const weights = [];\n"
    ++ "  for (let i = 0; i < n; i++) \x7b\n"
    ++ "    let logWeight = 0;\n"
    ++ "    const ctx = \x7b\n"
    ++ "      observe(dist, val) \x7b logWeight += __bet_observe(dist, val); \x7d\n"
    ++ "    \x7d;\n"
    ++ "    const val = modelFn(ctx);\n"
    ++ "    samples.push(val);\n"
    ++ "    weights.push(Math.exp(logWeight));\n"
    ++ "  \x7d\n"
    ++ "  // Resample according to weights\n"
    ++ "  const totalW = weights.reduce((a, b) => a + b, 0);\n"
    ++ "  const resampled = [];\n"
    ++ "  for (let i = 0; i < n; i++) \x7b\n"
    ++ "    let r = Math.random() * totalW;\n"
    ++ "    let cumul = 0;\n"
    ++ "    for (let j = 0; j < n; j++) \x7b\n"
    ++ "      cumul += weights[j];\n"
    ++ "      if (r < cumul) \x7b resampled.push(samples[j]); break; \x7d\n"
    ++ "    \x7d\n"
    ++ "  \x7d\n"
    ++ "  return resampled;\n"
    ++ "\x7d\n"
    ++ "\n"
    ++ "function __bet_infer_mcmc(modelFn, n) \x7b\n"
    ++ "  const samples = [];\n"
    ++ "  let current = modelFn();\n"
    ++ "  for (let i = 0; i < n; i++) \x7b\n"
    ++ "    const proposal = modelFn();\n"
    ++ "    // Metropolis-Hastings with uniform proposal (accept always for now)\n"
    ++ "    current = proposal;\n"
    ++ "    samples.push(current);\n"
    ++ "  \x7d\n"
    ++ "  return samples;\n"
    ++ "\x7d\n"
    ++ "\n"
    ++ "// \x2d\x2d- Monte Carlo simulation \x2d\x2d-\n"
    ++ "\n"
    ++ "function __bet_monte_carlo(n, trialFn) \x7b\n"
    ++ "  const results = [];\n"
    ++ "  for (let i = 0; i < n; i++) \x7b\n"
    ++ "    results.push(trialFn());\n"
    ++ "  \x7d\n"
    ++ "  return results;\n"
    ++ "\x7d\n"
    ++ "\n"
    ++ "function __bet_mc_mean(samples) \x7b\n"
    ++ "  return samples.reduce((a, b) => a + b, 0) / samples.length;\n"
    ++ "\x7d\n"
    ++ "\n"
    ++ "function __bet_mc_variance(samples) \x7b\n"
    ++ "  const mu = __bet_mc_mean(samples);\n"
    ++ "  return samples.reduce((s, x) => s + (x - mu) * (x - mu), 0) / samples.length;\n"
    ++ "\x7d\n"
    ++ "\n"
    ++ "// \x2d\x2d- Markov chain \x2d\x2d-\n"
    ++ "\n"
    ++ "function __bet_markov_step(state, transitionFn) \x7b\n"
    ++ "  return transitionFn(state);\n"
    ++ "\x7d\n"
    ++ "\n"
    ++ "function __bet_markov_chain(initial, steps, transitionFn) \x7b\n"
    ++ "  const chain = [initial];\n"
    ++ "  let state = initial;\n"
    ++ "  for (let i = 0; i < steps; i++) \x7b\n"
    ++ "    state = transitionFn(state);\n"
    ++ "    chain.push(state);\n"
    ++ "  \x7d\n"
    ++ "  return chain;\n"
    ++ "\x7d\n"
    ++ "\n"
    ++ "// \x2d\x2d- Uncertainty propagation \x2d\x2d-\n"
    ++ "\n"
    ++ "class __BetUncertain \x7b\n"
    ++ "  constructor(value, variance) \x7b\n"
    ++ "    this.value = value;\n"
    ++ "    this.variance = variance;\n"
    ++ "  \x7d\n"
    ++ "  get stddev() \x7b return Math.sqrt(this.variance); \x7d\n"
    ++ "\n"
    ++ "  static from(value, stddev) \x7b\n"
    ++ "    return new __BetUncertain(value, stddev * stddev);\n"
    ++ "  \x7d\n"
    ++ "\n"
    ++ "  add(other) \x7b\n"
    ++ "    if (other instanceof __BetUncertain) \x7b\n"
    ++ "      return new __BetUncertain(this.value + other.value, this.variance + other.variance);\n"
    ++ "    \x7d\n"
    ++ "    return new __BetUncertain(this.value + other, this.variance);\n"
    ++ "  \x7d\n"
    ++ "  sub(other) \x7b\n"
    ++ "    if (other instanceof __BetUncertain) \x7b\n"
    ++ "      return new __BetUncertain(this.value - other.value, this.variance + other.variance);\n"
    ++ "    \x7d\n"
    ++ "    return new __BetUncertain(this.value - other, this.variance);\n"
    ++ "  \x7d\n"
    ++ "  mul(other) \x7b\n"
    ++ "    if (other instanceof __BetUncertain) \x7b\n"
    ++ "      // First-order error propagation: Var(X*Y) ~ Y^2*Var(X) + X^2*Var(Y)\n"
    ++ "      const v = other.value * other.value * this.variance\n"
    ++ "              + this.value * this.value * other.variance;\n"
    ++ "      return new __BetUncertain(this.value * other.value, v);\n"
    ++ "    \x7d\n"
    ++ "    return new __BetUncertain(this.value * other, this.variance * other * other);\n"
    ++ "  \x7d\n"
    ++ "  div(other) \x7b\n"
    ++ "    if (other instanceof __BetUncertain) \x7b\n"
    ++ "      const v = (this.variance + this.value * this.value * other.variance\n"
    ++ "                / (other.value * other.value))\n"
    ++ "                / (other.value * other.value);\n"
    ++ "      return new __BetUncertain(this.value / other.value, v);\n"
    ++ "    \x7d\n"
    ++ "    return new __BetUncertain(this.value / other, this.variance / (other * other));\n"
    ++ "  \x7d\n"
    ++ "\n"
    ++ "  toString() \x7b\n"
    ++ "    return \x60$\x7bthis.value\x7d ± $\x7bthis.stddev.toFixed(4)\x7d\x60;\n"
    ++ "  \x7d\n"
    ++ "\x7d\n"
    ++ "\n"
    ++ "// === End of Betlang Runtime Preamble ===\n"
    ++ "\n"

set_option maxHeartbeats 1600000 in
mutual
/-- `emit_js_expr` (bet-codegen, lines 492-1054), arm for arm.  The
Rust version appends to a shared output buffer and returns
`CompileResult<()>`; here each call returns the text it appends
(appending left-to-right is concatenation) together with the threaded
context.  Braces and apostrophes inside the emitted JavaScript appear
as the escapes `\x7b`, `\x7d`, `\x27`. -/
def emitJsExpr (e : Expr) (ctx : JsCtx) : Except CompileError (String × JsCtx) :=
  match e with
  -- Literals
  | .intE i => .ok (toString i, ctx)
  | .floatE f =>
      let s := floatToString f
      .ok (if !(s.contains '.') && !(s.contains 'e') && !(s.contains 'E')
           then s ++ ".0" else s, ctx)
  | .stringE s =>
      .ok ("\"" ++ replaceChar (replaceChar (replaceChar s '\\' "\\\\") '"' "\\\"") '\n' "\\n"
            ++ "\"", ctx)
  | .boolE b => .ok (if b then "true" else "false", ctx)
  | .ternaryE t =>
      .ok (match t with
           | .tTrue => "1"
           | .tFalse => "-1"
           | .tUnknown => "0", ctx)
  | .unit => .ok ("null", ctx)
  -- Variables
  | .var s => .ok (sanitizeJsIdent s, ctx)
  -- Ternary bet (uniform)
  | .bet a0 a1 a2 => do
      let (s0, ctx) ← emitJsExpr a0 ctx
      let (s1, ctx) ← emitJsExpr a1 ctx
      let (s2, ctx) ← emitJsExpr a2 ctx
      .ok ("__bet_uniform(" ++ s0 ++ ", " ++ s1 ++ ", " ++ s2 ++ ")", ctx)
  -- Weighted bet: the three values first, then the three weights
  | .weightedBet v0 w0 v1 w1 v2 w2 => do
      let (sv0, ctx) ← emitJsExpr v0 ctx
      let (sv1, ctx) ← emitJsExpr v1 ctx
      let (sv2, ctx) ← emitJsExpr v2 ctx
      let (sw0, ctx) ← emitJsExpr w0 ctx
      let (sw1, ctx) ← emitJsExpr w1 ctx
      let (sw2, ctx) ← emitJsExpr w2 ctx
      .ok ("__bet_weighted([" ++ sv0 ++ ", " ++ sv1 ++ ", " ++ sv2 ++
           "], [" ++ sw0 ++ ", " ++ sw1 ++ ", " ++ sw2 ++ "])", ctx)
  -- Conditional bet
  | .conditionalBet c t f0 f1 f2 => do
      let (sc, ctx) ← emitJsExpr c ctx
      let (st, ctx) ← emitJsExpr t ctx
      let (s0, ctx) ← emitJsExpr f0 ctx
      let (s1, ctx) ← emitJsExpr f1 ctx
      let (s2, ctx) ← emitJsExpr f2 ctx
      .ok ("(" ++ sc ++ " ? " ++ st ++ " : __bet_uniform(" ++ s0 ++ ", "
           ++ s1 ++ ", " ++ s2 ++ "))", ctx)
  -- Function application.  The Rust arm first checks `func` for a known
  -- distribution/constructor name and otherwise falls through to the
  -- general emission; a `Var` callee with an unknown name takes the
  -- general path, which for it is `sanitize(name)(args...)`.
  | .app (.var name) args =>
      (match distCall name with
       | some opening => do
          let (sa, ctx) ← emitJsArgs args ctx
          .ok (opening ++ sa ++ ")", ctx)
       | none => do
          let (sf, ctx) ← emitJsExpr (.var name) ctx
          let (sa, ctx) ← emitJsArgs args ctx
          .ok (sf ++ "(" ++ sa ++ ")", ctx))
  | .app f args => do
      let (sf, ctx) ← emitJsExpr f ctx
      let (sa, ctx) ← emitJsArgs args ctx
      .ok (sf ++ "(" ++ sa ++ ")", ctx)
  -- Lambda
  | .lambda params body => do
      let (sb, ctx) ← emitJsExpr body ctx
      .ok ("(function(" ++ patternParams params ++ ") \x7b return " ++ sb
           ++ "; \x7d)", ctx)
  -- Let binding (IIFE)
  | .letE pat value body _ => do
      let ctx := { ctx with indent := ctx.indent + 1 }
      let s1 := "(function() \x7b\n" ++ indentStr ctx
                  ++ emit_js_let_pattern pat ++ " = "
      let (sv, ctx) ← emitJsExpr value ctx
      let s2 := ";\n" ++ indentStr ctx ++ "return "
      let (sb, ctx) ← emitJsExpr body ctx
      let ctx := { ctx with indent := ctx.indent - 1 }
      .ok (s1 ++ sv ++ s2 ++ sb ++ ";\n" ++ indentStr ctx ++ "\x7d)()", ctx)
  -- Do notation (IIFE)
  | .doE stmts => do
      let ctx := { ctx with indent := ctx.indent + 1 }
      let (ss, ctx) ← emitJsStmts stmts ctx
      let ctx := { ctx with indent := ctx.indent - 1 }
      .ok ("(function() \x7b\n" ++ ss ++ indentStr ctx ++ "\x7d)()", ctx)
  -- Conditional
  | .ifE c t f => do
      let (sc, ctx) ← emitJsExpr c ctx
      let (st, ctx) ← emitJsExpr t ctx
      let (sf, ctx) ← emitJsExpr f ctx
      .ok ("(" ++ sc ++ " ? " ++ st ++ " : " ++ sf ++ ")", ctx)
  -- Match (IIFE over a fresh scrutinee variable)
  | .matchE scrut arms => do
      let (sv, ctx) := freshVar ctx
      let ctx := { ctx with indent := ctx.indent + 1 }
      let s1 := "(function() \x7b\n" ++ indentStr ctx ++ "const " ++ sv ++ " = "
      let (ss, ctx) ← emitJsExpr scrut ctx
      let (sa, ctx) ← emitJsArms arms sv ctx
      let s2 := indentStr ctx ++ "throw new Error(\x27Non-exhaustive match\x27);\n"
      let ctx := { ctx with indent := ctx.indent - 1 }
      .ok (s1 ++ ss ++ ";\n" ++ sa ++ s2 ++ indentStr ctx ++ "\x7d)()", ctx)
  -- Data structures
  | .tupleE elems => do
      let (sa, ctx) ← emitJsArgs elems ctx
      .ok ("[" ++ sa ++ "]", ctx)
  | .listE elems => do
      let (sa, ctx) ← emitJsArgs elems ctx
      .ok ("[" ++ sa ++ "]", ctx)
  | .record fields => do
      let (sf, ctx) ← emitJsFields fields ctx
      .ok ("(\x7b " ++ sf ++ " \x7d)", ctx)
  | .field obj name => do
      let (so, ctx) ← emitJsExpr obj ctx
      .ok (so ++ "." ++ name, ctx)
  | .index obj i => do
      let (so, ctx) ← emitJsExpr obj ctx
      let (si, ctx) ← emitJsExpr i ctx
      .ok (so ++ "[" ++ si ++ "]", ctx)
  -- Binary operators (every arm is wrapped in parentheses)
  | .binOp op l r => do
      let (sc, ctx) ←
       (match op with
       | .add => do
           let (sl, ctx) ← emitJsExpr l ctx
           let (sr, ctx) ← emitJsExpr r ctx
           .ok (sl ++ " + " ++ sr, ctx)
       | .sub => do
           let (sl, ctx) ← emitJsExpr l ctx
           let (sr, ctx) ← emitJsExpr r ctx
           .ok (sl ++ " - " ++ sr, ctx)
       | .mul => do
           let (sl, ctx) ← emitJsExpr l ctx
           let (sr, ctx) ← emitJsExpr r ctx
           .ok (sl ++ " * " ++ sr, ctx)
       | .div => do
           let (sl, ctx) ← emitJsExpr l ctx
           let (sr, ctx) ← emitJsExpr r ctx
           .ok (sl ++ " / " ++ sr, ctx)
       | .mod => do
           let (sl, ctx) ← emitJsExpr l ctx
           let (sr, ctx) ← emitJsExpr r ctx
           .ok (sl ++ " % " ++ sr, ctx)
       | .pow => do
           let (sl, ctx) ← emitJsExpr l ctx
           let (sr, ctx) ← emitJsExpr r ctx
           .ok ("Math.pow(" ++ sl ++ ", " ++ sr ++ ")", ctx)
       | .eq => do
           let (sl, ctx) ← emitJsExpr l ctx
           let (sr, ctx) ← emitJsExpr r ctx
           .ok (sl ++ " === " ++ sr, ctx)
       | .ne => do
           let (sl, ctx) ← emitJsExpr l ctx
           let (sr, ctx) ← emitJsExpr r ctx
           .ok (sl ++ " !== " ++ sr, ctx)
       | .lt => do
           let (sl, ctx) ← emitJsExpr l ctx
           let (sr, ctx) ← emitJsExpr r ctx
           .ok (sl ++ " < " ++ sr, ctx)
       | .le => do
           let (sl, ctx) ← emitJsExpr l ctx
           let (sr, ctx) ← emitJsExpr r ctx
           .ok (sl ++ " <= " ++ sr, ctx)
       | .gt => do
           let (sl, ctx) ← emitJsExpr l ctx
           let (sr, ctx) ← emitJsExpr r ctx
           .ok (sl ++ " > " ++ sr, ctx)
       | .ge => do
           let (sl, ctx) ← emitJsExpr l ctx
           let (sr, ctx) ← emitJsExpr r ctx
           .ok (sl ++ " >= " ++ sr, ctx)
       | .and => do
           let (sl, ctx) ← emitJsExpr l ctx
           let (sr, ctx) ← emitJsExpr r ctx
           .ok (sl ++ " && " ++ sr, ctx)
       | .or => do
           let (sl, ctx) ← emitJsExpr l ctx
           let (sr, ctx) ← emitJsExpr r ctx
           .ok (sl ++ " || " ++ sr, ctx)
       | .xor => do
           -- both operands are emitted twice
           let (sl1, ctx) ← emitJsExpr l ctx
           let (sr1, ctx) ← emitJsExpr r ctx
           let (sl2, ctx) ← emitJsExpr l ctx
           let (sr2, ctx) ← emitJsExpr r ctx
           .ok ("((" ++ sl1 ++ " === 0 || " ++ sr1 ++ " === 0) ? 0 : ("
                ++ sl2 ++ " !== " ++ sr2 ++ "))", ctx)
       | .concat => do
           let (sl, ctx) ← emitJsExpr l ctx
           let (sr, ctx) ← emitJsExpr r ctx
           .ok (sl ++ " + " ++ sr, ctx)
       | .cons => do
           let (sl, ctx) ← emitJsExpr l ctx
           let (sr, ctx) ← emitJsExpr r ctx
           .ok ("[" ++ sl ++ ", ..." ++ sr ++ "]", ctx)
       | .append => do
           let (sl, ctx) ← emitJsExpr l ctx
           let (sr, ctx) ← emitJsExpr r ctx
           .ok ("[..." ++ sl ++ ", ..." ++ sr ++ "]", ctx)
       | .compose => do
           let (p, ctx) := freshVar ctx
           let (sg, ctx) ← emitJsExpr r ctx
           let (sf, ctx) ← emitJsExpr l ctx
           .ok ("(function(" ++ p ++ ") \x7b return (" ++ sg ++ ")(" ++ "("
                ++ sf ++ ")(" ++ p ++ ")); \x7d)", ctx)
        : Except CompileError (String × JsCtx))
      .ok ("(" ++ sc ++ ")", ctx)
  -- Unary operators
  | .unOp op x =>
      (match op with
       | .neg => do
           let (sx, ctx) ← emitJsExpr x ctx
           .ok ("(-" ++ sx ++ ")", ctx)
       | .not => do
           -- ternary NOT under the {1, 0, -1} encoding
           let (sx, ctx) ← emitJsExpr x ctx
           .ok ("(-" ++ sx ++ ")", ctx)
       | .sample => do
           let (sx, ctx) ← emitJsExpr x ctx
           .ok ("__bet_sample(" ++ sx ++ ")", ctx))
  -- Probabilistic operations
  | .sample d => do
      let (sd, ctx) ← emitJsExpr d ctx
      .ok ("__bet_sample(" ++ sd ++ ")", ctx)
  | .observe d v => do
      let (sd, ctx) ← emitJsExpr d ctx
      let (sv, ctx) ← emitJsExpr v ctx
      .ok ("__bet_observe(" ++ sd ++ ", " ++ sv ++ ")", ctx)
  | .infer method params model => do
      let (sp, ctx) ← emitJsFields params ctx
      let (sm, ctx) ← emitJsExpr model ctx
      .ok ("__bet_infer(\x27" ++ inferMethodStr method ++ "\x27, \x7b" ++ sp
           ++ "\x7d, function() \x7b return " ++ sm ++ "; \x7d)", ctx)
  | .parallel n body => do
      let ctx := { ctx with indent := ctx.indent + 1 }
      let s1 := "(function() \x7b\n" ++ indentStr ctx ++ "const __n = "
      let (sn, ctx) ← emitJsExpr n ctx
      let s2 := ";\n" ++ indentStr ctx ++ "const __results = [];\n"
                  ++ indentStr ctx
                  ++ "for (let __i = 0; __i < __n; __i++) \x7b\n"
      let ctx := { ctx with indent := ctx.indent + 1 }
      let s3 := indentStr ctx ++ "__results.push("
      let (sb, ctx) ← emitJsExpr body ctx
      let ctx := { ctx with indent := ctx.indent - 1 }
      let s4 := ");\n" ++ indentStr ctx ++ "\x7d\n" ++ indentStr ctx
                  ++ "return __results;\n"
      let ctx := { ctx with indent := ctx.indent - 1 }
      .ok (s1 ++ sn ++ s2 ++ s3 ++ sb ++ s4 ++ indentStr ctx ++ "\x7d)()", ctx)
  -- Type annotations (erased at codegen)
  | .annotate inner => emitJsExpr inner ctx
  -- Holes and errors
  | .hole name =>
      let label := name.getD "_"
      .ok ("(function() \x7b throw new Error(\x27Unimplemented hole: " ++ label
           ++ "\x27); \x7d)()", ctx)
  | .errorE =>
      .ok ("(function() \x7b throw new Error(\x27Compilation error node\x27); \x7d)()",
           ctx)
termination_by sizeOf e

/-- `emit_js_args` (bet-codegen, lines 1060-1072): comma-separated
emission of a list of expressions.  Also serves the element loops of
`Tuple` and `List`, which are textually identical. -/
def emitJsArgs (args : List Expr) (ctx : JsCtx) :
    Except CompileError (String × JsCtx) :=
  match args with
  | [] => .ok ("", ctx)
  | [a] => emitJsExpr a ctx
  | a :: rest => do
      let (s, ctx) ← emitJsExpr a ctx
      let (t, ctx) ← emitJsArgs rest ctx
      .ok (s ++ ", " ++ t, ctx)
termination_by sizeOf args

/-- The field loops of `Record` and the parameter loop of `Infer`:
comma-separated `name: value` pairs (names emitted raw). -/
def emitJsFields (fields : List (String × Expr)) (ctx : JsCtx) :
    Except CompileError (String × JsCtx) :=
  match fields with
  | [] => .ok ("", ctx)
  | [(name, v)] => do
      let (sv, ctx) ← emitJsExpr v ctx
      .ok (name ++ ": " ++ sv, ctx)
  | (name, v) :: rest => do
      let (sv, ctx) ← emitJsExpr v ctx
      let (st, ctx) ← emitJsFields rest ctx
      .ok (name ++ ": " ++ sv ++ ", " ++ st, ctx)
termination_by sizeOf fields

/-- The arm loop of the `Expr::Match` arm. -/
def emitJsArms (arms : List (Pattern × Option Expr × Expr)) (sv : String)
    (ctx : JsCtx) : Except CompileError (String × JsCtx) :=
  match arms with
  | [] => .ok ("", ctx)
  | (pat, guard, body) :: rest => do
      let s1 := indentStr ctx ++ "if (" ++ emit_js_pattern_match sv pat
      let (sg, ctx) ←
        (match guard with
         | some g => do
             let (sg, ctx) ← emitJsExpr g ctx
             (.ok (" && " ++ sg, ctx) : Except CompileError (String × JsCtx))
         | none => .ok ("", ctx))
      let ctx := { ctx with indent := ctx.indent + 1 }
      let s2 := ") \x7b\n" ++ indentStr ctx
                  ++ emit_js_pattern_bindings sv pat ++ "return "
      let (sb, ctx) ← emitJsExpr body ctx
      let ctx := { ctx with indent := ctx.indent - 1 }
      let s3 := ";\n" ++ indentStr ctx ++ "\x7d\n"
      let (st, ctx) ← emitJsArms rest sv ctx
      .ok (s1 ++ sg ++ s2 ++ sb ++ s3 ++ st, ctx)
termination_by sizeOf arms

/-- The statement loop of the `Expr::Do` arm (only a final `Expr`
statement gets the `return`). -/
def emitJsStmts (stmts : List DoStmt) (ctx : JsCtx) :
    Except CompileError (String × JsCtx) :=
  match stmts with
  | [] => .ok ("", ctx)
  | [stmt] => emitJsStmt stmt true ctx
  | stmt :: rest => do
      let (s, ctx) ← emitJsStmt stmt false ctx
      let (t, ctx) ← emitJsStmts rest ctx
      .ok (s ++ t, ctx)
termination_by sizeOf stmts

/-- One statement of a `Do` block. -/
def emitJsStmt (stmt : DoStmt) (isLast : Bool) (ctx : JsCtx) :
    Except CompileError (String × JsCtx) :=
  match stmt with
  | .bindS pat e => do
      let s1 := indentStr ctx ++ emit_js_let_pattern pat ++ " = "
      let (se, ctx) ← emitJsExpr e ctx
      .ok (s1 ++ se ++ ";\n", ctx)
  | .letS pat e => do
      let s1 := indentStr ctx ++ emit_js_let_pattern pat ++ " = "
      let (se, ctx) ← emitJsExpr e ctx
      .ok (s1 ++ se ++ ";\n", ctx)
  | .exprS e => do
      let s1 := indentStr ctx ++ (if isLast then "return " else "")
      let (se, ctx) ← emitJsExpr e ctx
      .ok (s1 ++ se ++ ";\n", ctx)
termination_by sizeOf stmt
end

/-- `emit_js_item` (bet-codegen, lines 441-482).  Note: the item name of
a top-level `let` is emitted *raw*, without `sanitize_js_ident`. -/
def emitJsItem (item : Item) (ctx : JsCtx) :
    Except CompileError (String × JsCtx) :=
  match item with
  | .letD name params body =>
      if params.isEmpty then do
        let (sb, ctx) ← emitJsExpr body ctx
        .ok ("const " ++ name ++ " = " ++ sb ++ ";\n", ctx)
      else do
        let s1 := "function " ++ name ++ "(" ++ patternParams params
                    ++ ") \x7b\n"
        let ctx := { ctx with indent := ctx.indent + 1 }
        let s2 := indentStr ctx ++ "return "
        let (sb, ctx) ← emitJsExpr body ctx
        let ctx := { ctx with indent := ctx.indent - 1 }
        .ok (s1 ++ s2 ++ sb ++ ";\n" ++ "\x7d\n", ctx)
  | .typeDef => .ok ("// (type definition elided)\n", ctx)
  | .importI path =>
      .ok ("// import " ++ String.intercalate "." path ++ "\n", ctx)
  | .exprI e => do
      let (se, ctx) ← emitJsExpr e ctx
      .ok (se ++ ";\n", ctx)

/-- The item loop of `codegen_module_js`: each item followed by a
newline. -/
def emitJsItems (items : List Item) (ctx : JsCtx) :
    Except CompileError (String × JsCtx) :=
  match items with
  | [] => .ok ("", ctx)
  | item :: rest => do
      let (s, ctx) ← emitJsItem item ctx
      let (t, ctx) ← emitJsItems rest ctx
      .ok (s ++ "\n" ++ t, ctx)

/-- The fixed header both JS entry points emit first. -/
def jsHeader : String := "// Generated by betlang\n\x27use strict\x27;\n\n"

/-- `codegen_js` (bet-codegen, lines 400-418). -/
def codegen_js (e : Expr) : Except CompileError CodeOutput := do
  let ctx : JsCtx := ⟨0, 0, false⟩
  let ctx := { ctx with preambleEmitted := true }
  let (s, _) ← emitJsExpr e ctx
  .ok ⟨.javaScript, jsHeader ++ jsPreamble ++ s ++ ";\n", none⟩

/-- `codegen_module_js` (bet-codegen, lines 420-439). -/
def codegen_module_js (m : Module) : Except CompileError CodeOutput := do
  let ctx : JsCtx := ⟨0, 0, false⟩
  let ctx := { ctx with preambleEmitted := true }
  let (s, _) ← emitJsItems m.items ctx
  .ok ⟨.javaScript, jsHeader ++ jsPreamble ++ s, none⟩

/-- `emit_llvm_expr` (bet-codegen, lines 1190-1203). -/
def emitLlvmExpr (e : Expr) : String :=
  match e with
  | .intE i => "  ret i64 " ++ toString i ++ "\n"
  | .floatE f => "  ret double " ++ floatToString f ++ "\n"
  | _ => "  ; unimplemented expression\n  ret i64 0\n"

/-- `codegen_llvm` (bet-codegen, lines 1170-1180). -/
def codegen_llvm (e : Expr) : Except CompileError CodeOutput :=
  .ok ⟨.llvm,
      "; Generated by betlang (LLVM IR)\n; TODO: Full LLVM codegen\n\n"
        ++ emitLlvmExpr e, none⟩

/-- `emit_beam_expr` (bet-codegen, lines 1229-1242). -/
def emitBeamExpr (e : Expr) : String :=
  match e with
  | .intE i => toString i
  | .floatE f => floatToString f
  | _ => "undefined"

/-- `codegen_beam` (bet-codegen, lines 1209-1219). -/
def codegen_beam (e : Expr) : Except CompileError CodeOutput :=
  .ok ⟨.beam,
      "%% Generated by betlang (BEAM)\n%% TODO: Full BEAM codegen\n\n"
        ++ emitBeamExpr e, none⟩

/-- `codegen` (bet-codegen, lines 68-74). -/
def codegen (e : Expr) (target : Target) : Except CompileError CodeOutput :=
  match target with
  | .javaScript => codegen_js e
  | .llvm => codegen_llvm e
  | .beam => codegen_beam e

/-- `codegen_module` (bet-codegen, lines 77-83). -/
def codegen_module (m : Module) (target : Target) :
    Except CompileError CodeOutput :=
  match target with
  | .javaScript => codegen_module_js m
  | .llvm => .ok ⟨.llvm, "; LLVM IR placeholder\n", none⟩
  | .beam => .ok ⟨.beam, "%% BEAM bytecode placeholder\n", none⟩

-- ===========================================================================
-- Totality of the JavaScript emitter
-- ===========================================================================

/-- Sequencing preserves success in the `Except` monad. -/
theorem bindOk {α β : Type} {x : Except CompileError α}
    {f : α → Except CompileError β}
    (hx : ∃ a, x = Except.ok a) (hf : ∀ a, ∃ b, f a = Except.ok b) :
    ∃ b, (x >>= f) = Except.ok b := by
  obtain ⟨a, ha⟩ := hx
  obtain ⟨b, hb⟩ := hf a
  exact ⟨b, by rw [ha]; exact hb⟩

set_option maxHeartbeats 2000000 in
/-- No arm of `emit_js_expr` (or of its helper loops) constructs an
error: emission succeeds on every expression. -/
theorem emitJsExpr_ok (e : Expr) (ctx : JsCtx) :
    ∃ p, emitJsExpr e ctx = Except.ok p := by
  apply emitJsExpr.induct
    (fun e ctx => ∃ p, emitJsExpr e ctx = Except.ok p)
    (fun fs ctx => ∃ p, emitJsFields fs ctx = Except.ok p)
    (fun arms sv ctx => ∃ p, emitJsArms arms sv ctx = Except.ok p)
    (fun stmts ctx => ∃ p, emitJsStmts stmts ctx = Except.ok p)
    (fun stmt b ctx => ∃ p, emitJsStmt stmt b ctx = Except.ok p)
    (fun args ctx => ∃ p, emitJsArgs args ctx = Except.ok p)
  case case5 =>
    intro ctx t
    cases t <;> exact ⟨_, by simp only [emitJsExpr]; rfl⟩
  case case24 =>
    intro ctx op l r ih
    cases op <;>
      first
      | (obtain ⟨ih1, ih2, ih3, ih4⟩ := ih
         simp only [emitJsExpr]
         repeat
           first
           | exact ⟨_, rfl⟩
           | solve_by_elim
           | refine bindOk ?_ fun _ => ?_)
      | (obtain ⟨ih1, ih2⟩ := ih
         simp only [emitJsExpr]
         repeat
           first
           | exact ⟨_, rfl⟩
           | solve_by_elim
           | refine bindOk ?_ fun _ => ?_)
  case case39 =>
    intro sv ctx pat guard body rest ih3 ih2 ih1
    cases guard <;>
      (simp only [emitJsExpr, emitJsArms]
       repeat
         first
         | exact ⟨_, rfl⟩
         | solve_by_elim
         | refine bindOk ?_ fun _ => ?_)
  all_goals intros
  all_goals
    try simp only [emitJsExpr, emitJsFields, emitJsArms, emitJsStmts,
      emitJsStmt, emitJsArgs, *]
  all_goals
    repeat
      first
      | exact ⟨_, rfl⟩
      | solve_by_elim
      | refine bindOk ?_ fun _ => ?_

/-- Item emission succeeds on every module item. -/
theorem emitJsItem_ok (item : Item) (ctx : JsCtx) :
    ∃ p, emitJsItem item ctx = Except.ok p := by
  cases item with
  | letD name params body =>
      by_cases hp : params.isEmpty <;>
        (simp only [emitJsItem, hp]
         repeat
           first
           | exact ⟨_, rfl⟩
           | solve_by_elim [emitJsExpr_ok]
           | refine bindOk ?_ fun _ => ?_)
  | typeDef => exact ⟨_, rfl⟩
  | importI path => exact ⟨_, rfl⟩
  | exprI e =>
      simp only [emitJsItem]
      repeat
        first
        | exact ⟨_, rfl⟩
        | solve_by_elim [emitJsExpr_ok]
        | refine bindOk ?_ fun _ => ?_

/-- The item loop succeeds on every item list. -/
theorem emitJsItems_ok (items : List Item) : ∀ ctx,
    ∃ p, emitJsItems items ctx = Except.ok p := by
  induction items with
  | nil => exact fun ctx => ⟨_, rfl⟩
  | cons item rest ih =>
      intro ctx
      simp only [emitJsItems]
      repeat
        first
        | exact ⟨_, rfl⟩
        | solve_by_elim [emitJsItem_ok]
        | refine bindOk ?_ fun _ => ?_

-- ===========================================================================
-- Claim C4
-- ===========================================================================

/-- `Except.ok` is left-neutral for bind. -/
theorem exceptOkBind {α β : Type} (a : α) (f : α → Except CompileError β) :
    (Except.ok a >>= f) = f a := rfl

/-- **C4.**  For every expression and every module, codegen to the
JavaScript target succeeds, and the resulting `CodeOutput.code` is
exactly the header text `// Generated by betlang` + newline +
`\x27use strict\x27;` + two newlines (that is `jsHeader`, first conjunct),
followed immediately by the fixed runtime preamble string, followed by
the translated expression (plus `;` and newline) resp. the translated
items. -/
theorem c4_codegen_js_layout (e : Expr) (m : Module) :
    jsHeader = "// Generated by betlang\n\x27use strict\x27;\n\n" ∧
    (∃ p, emitJsExpr e ⟨0, 0, true⟩ = Except.ok p ∧
        codegen e .javaScript = Except.ok
          ⟨.javaScript, jsHeader ++ jsPreamble ++ p.1 ++ ";\n", none⟩) ∧
    (∃ p, emitJsItems m.items ⟨0, 0, true⟩ = Except.ok p ∧
        codegen_module m .javaScript = Except.ok
          ⟨.javaScript, jsHeader ++ jsPreamble ++ p.1, none⟩) := by
  obtain ⟨p, hp⟩ := emitJsExpr_ok e ⟨0, 0, true⟩
  obtain ⟨q, hq⟩ := emitJsItems_ok m.items ⟨0, 0, true⟩
  refine ⟨rfl, ⟨p, hp, ?_⟩, ⟨q, hq, ?_⟩⟩
  · simp only [codegen, codegen_js, hp, exceptOkBind]
  · simp only [codegen_module, codegen_module_js, hq, exceptOkBind]

-- ===========================================================================
-- Claim C3
-- ===========================================================================

/-- **C3, counterexample.**  The claim says evaluating `Observe(d, v)`
returns the same result as evaluating its argument `d`.  At
`Observe(Int 5, Int 3)` the evaluator returns `Unit` (catch-all arm),
while the argument evaluates to `Int 5`. -/
theorem c3_counterexample :
    eval 2 (.observe (.intE 5) (.intE 3)) [] ⟨[], []⟩ = (.ok .unit, [], ⟨[], []⟩) ∧
    eval 2 (.intE 5) [] ⟨[], []⟩ = (.ok (.int 5), [], ⟨[], []⟩) ∧
    Value.unit ≠ Value.int 5 := by
  refine ⟨rfl, rfl, ?_⟩
  simp

/-- **C3, amended.**  The tree-walking evaluator does not execute
`Observe` or `Infer`; it maps both nodes to `Unit` without evaluating
any subexpression (the environment and the random source are left
untouched) — it does not return the value of the argument. -/
theorem c3_observe_infer_erased_to_unit (fuel : ℕ) (d v model : Expr)
    (m : InferMethod) (ps : List (String × Expr)) (env : Env) (rng : Rng) :
    eval (fuel + 1) (.observe d v) env rng = (.ok .unit, env, rng) ∧
    eval (fuel + 1) (.infer m ps model) env rng = (.ok .unit, env, rng) :=
  ⟨rfl, rfl⟩

-- ===========================================================================
-- Claim C5
-- ===========================================================================

/-- **C5, counterexample.**  The claim's truthiness table says
`Ternary::False`, `Ternary::Unknown`, the empty list, the empty tuple
and the empty string are all falsy; in `is_truthy` every one of them
falls through to the `_ => true` arm. -/
theorem c5_counterexample :
    is_truthy (.ternary .tFalse) = true ∧
    is_truthy (.ternary .tUnknown) = true ∧
    is_truthy (.list []) = true ∧
    is_truthy (.tuple []) = true ∧
    is_truthy (.string "") = true ∧
    is_truthy (.ternary .tFalse) ≠ false ∧
    is_truthy (.list []) ≠ false :=
  ⟨rfl, rfl, rfl, rfl, rfl, by decide, by decide⟩

/-- The truthiness table that `is_truthy` actually implements (written
out separately from the source transcription): Unit is falsy; a Bool is
itself; an Int is truthy iff nonzero; a Float is truthy iff nonzero;
*every* other value — all three ternary values included, and all
strings, lists, tuples (empty or not) and closures — is truthy.  The
evaluator\x27s `Value` has no `Error` variant at all. -/
def truthyAmended (v : Value) : Bool :=
  match v with
  | .unit => false
  | .bool b => b
  | .int i => decide (i ≠ 0)
  | .float q => decide (q ≠ 0)
  | .ternary _ => true
  | .string _ => true
  | .list _ => true
  | .tuple _ => true
  | .closure _ _ _ => true

/-- **C5, amended.**  `is_truthy` agrees everywhere with the corrected
table `truthyAmended`. -/
theorem c5_is_truthy_characterisation (v : Value) :
    is_truthy v = truthyAmended v := by
  cases v with
  | ternary t => cases t <;> rfl
  | _ => rfl

-- ===========================================================================
-- Claim C6
-- ===========================================================================

/-- **C6, counterexample.**  The claim asserts the Kleene identity
`and(t, True) = t` for the evaluator's operators.  At `t = Unknown`,
`eval_binop` has no `And` arm for ternary operands: the catch-all
produces an `Unsupported operation` runtime error instead of
`Ternary(Unknown)`. -/
theorem c6_counterexample :
    eval_binop .and (.ternary .tUnknown) (.ternary .tTrue)
      = some (.error (.runtime
          (unsupportedBinMsg .and (.ternary .tUnknown) (.ternary .tTrue)))) ∧
    eval_binop .and (.ternary .tUnknown) (.ternary .tTrue)
      ≠ some (.ok (.ternary .tUnknown)) := by
  refine ⟨rfl, ?_⟩
  intro hcontra
  rw [show eval_binop .and (.ternary .tUnknown) (.ternary .tTrue)
        = some (.error (.runtime
            (unsupportedBinMsg .and (.ternary .tUnknown) (.ternary .tTrue))))
      from rfl] at hcontra
  exact Except.noConfusion (Option.some.inj hcontra)

/-- **C6, amended.**  Of the three Kleene identities only the `not`
involution holds in the evaluator: `eval_unop` swaps `True ↔ False` and
fixes `Unknown`, so `not (not t) = t` for every ternary `t`; but
`eval_binop` implements `And`/`Or` only for `Bool` operands, so both
`and(t, True)` and `or(t, False)` are `Unsupported operation` runtime
errors for every ternary `t`. -/
theorem c6_ternary_ops (t : TernaryVal) :
    (∃ t', eval_unop .not (.ternary t) = .ok (.ternary t') ∧
        eval_unop .not (.ternary t') = .ok (.ternary t)) ∧
    eval_binop .and (.ternary t) (.ternary .tTrue)
      = some (.error (.runtime
          (unsupportedBinMsg .and (.ternary t) (.ternary .tTrue)))) ∧
    eval_binop .or (.ternary t) (.ternary .tFalse)
      = some (.error (.runtime
          (unsupportedBinMsg .or (.ternary t) (.ternary .tFalse)))) := by
  cases t <;> exact ⟨⟨_, rfl, rfl⟩, rfl, rfl⟩

-- ===========================================================================
-- Claim C8
-- ===========================================================================

/-- **C8.**  The zero-divisor guard covers only integer division: `Div`
on `Int` operands with divisor `0` is the `Division by zero` runtime
error, while the `Mod` arm is unguarded — `b = 0` is a Rust panic
(`Res.abort` through `eval`, `none` in `eval_binop`), not a
`CompileError`, and for `b ≠ 0` it computes the truncated remainder. -/
theorem c8_div_guarded_mod_unguarded (a b : ℤ) (env : Env) (rng : Rng)
    (fuel : ℕ) (h : b ≠ 0) :
    eval_binop .div (.int a) (.int 0)
      = some (.error (.runtime "Division by zero")) ∧
    eval_binop .mod (.int a) (.int 0) = none ∧
    eval (fuel + 2) (.binOp .mod (.intE a) (.intE 0)) env rng
      = (.abort, env, rng) ∧
    eval_binop .mod (.int a) (.int b) = some (.ok (.int (a.tmod b))) ∧
    eval_binop .div (.int a) (.int b) = some (.ok (.int (a.tdiv b))) := by
  refine ⟨rfl, rfl, rfl, ?_, ?_⟩
  · show (if b = 0 then none
        else some (Except.ok (Value.int (a.tmod b))))
      = some (Except.ok (Value.int (a.tmod b)))
    rw [if_neg h]
  · show (if b = 0 then some (Except.error (CompileError.runtime "Division by zero"))
        else some (Except.ok (Value.int (a.tdiv b))))
      = some (Except.ok (Value.int (a.tdiv b)))
    rw [if_neg h]

/-- Witness for C8 at `a = 7`, `b = 3`. -/
theorem c8_div_guarded_mod_unguarded_witness :
    (3 : ℤ) ≠ 0 ∧
    (eval_binop .div (.int 7) (.int 0)
        = some (.error (.runtime "Division by zero")) ∧
      eval_binop .mod (.int 7) (.int 0) = none ∧
      eval 2 (.binOp .mod (.intE 7) (.intE 0)) [] ⟨[], []⟩
        = (.abort, [], ⟨[], []⟩) ∧
      eval_binop .mod (.int 7) (.int 3) = some (.ok (.int (Int.tmod 7 3))) ∧
      eval_binop .div (.int 7) (.int 3) = some (.ok (.int (Int.tdiv 7 3)))) :=
  ⟨by decide, c8_div_guarded_mod_unguarded 7 3 [] ⟨[], []⟩ 0 (by decide)⟩

-- ===========================================================================
-- Claim C9
-- ===========================================================================

/-- Zipping ignores appended surplus on the right when the left list is
not longer than the original right list. -/
theorem zip_append_of_le {α β : Type} :
    ∀ (ps : List α) (args extra : List β),
      ps.length ≤ args.length → ps.zip (args ++ extra) = ps.zip args := by
  intro ps
  induction ps with
  | nil => intro args extra _; rfl
  | cons p ps ih =>
      intro args extra h
      cases args with
      | nil => exact absurd h (by simp)
      | cons a args =>
          simp only [List.cons_append, List.zip_cons_cons, List.cons.injEq,
            true_and]
          exact ih args extra (Nat.le_of_succ_le_succ h)

/-- A name bound by none of the pairs resolves past `bindAll` to the
base environment. -/
theorem lookupEnv_bindAll_of_not_bound :
    ∀ (pairs : List (String × Value)) (cenv : Env) (name : String),
      (∀ pa ∈ pairs, pa.1 ≠ name) →
      lookupEnv (bindAll cenv pairs) name = lookupEnv cenv name := by
  intro pairs
  induction pairs with
  | nil => intro cenv name _; rfl
  | cons p rest ih =>
      intro cenv name h
      have hp : p.1 ≠ name := h p (List.mem_cons_self p rest)
      have hrest : ∀ pa ∈ rest, pa.1 ≠ name :=
        fun pa hpa => h pa (List.mem_cons_of_mem p hpa)
      calc lookupEnv (bindAll cenv (p :: rest)) name
      _ = lookupEnv (bindAll (bindEnv cenv p.1 p.2) rest) name := rfl
      _ = lookupEnv (bindEnv cenv p.1 p.2) name := ih _ name hrest
      _ = lookupEnv cenv name := by
            simp only [lookupEnv, bindEnv]
            rw [if_neg hp]

/-- **C9.**  Applying a closure performs no arity check: the body runs
in the captured environment extended by exactly the `zip` of parameters
with arguments — `min` of the two lengths many bindings — so surplus
arguments are silently dropped (appending extras changes nothing once
every parameter is matched), unmatched parameter names stay unbound
(lookup falls through to the captured environment), and application
itself raises no error on a closure. -/
theorem c9_apply_no_arity_check (ev : Expr → Env → Rng → Res × Env × Rng)
    (ps : List String) (body : Expr) (cenv : Env) (args extra : List Value)
    (rng : Rng) (name : String)
    (h : ps.length ≤ args.length)
    (hname : ∀ pa ∈ ps.zip args, pa.1 ≠ name) :
    apply ev (.closure ps body cenv) args rng
      = ((ev body (bindAll cenv (ps.zip args)) rng).1,
         (ev body (bindAll cenv (ps.zip args)) rng).2.2) ∧
    (ps.zip args).length = min ps.length args.length ∧
    apply ev (.closure ps body cenv) (args ++ extra) rng
      = apply ev (.closure ps body cenv) args rng ∧
    lookupEnv (bindAll cenv (ps.zip args)) name = lookupEnv cenv name := by
  refine ⟨rfl, List.length_zip _ _, ?_, ?_⟩
  · simp only [apply, zip_append_of_le ps args extra h]
  · exact lookupEnv_bindAll_of_not_bound _ cenv name hname

/-- Witness for C9: one parameter, two arguments, one extra argument,
and an unrelated name `y`. -/
theorem c9_apply_no_arity_check_witness :
    (["x"].length ≤ [Value.int 1, Value.int 2].length ∧
      ∀ pa ∈ ["x"].zip [Value.int 1, Value.int 2], pa.1 ≠ "y") ∧
    (apply (fun _ env r => (.ok .unit, env, r))
        (.closure ["x"] .unit []) [Value.int 1, Value.int 2] ⟨[], []⟩
      = ((((fun (_ : Expr) (env : Env) (r : Rng) => ((.ok .unit : Res), env, r))
            .unit (bindAll [] (["x"].zip [Value.int 1, Value.int 2])) ⟨[], []⟩).1),
         (((fun (_ : Expr) (env : Env) (r : Rng) => ((.ok .unit : Res), env, r))
            .unit (bindAll [] (["x"].zip [Value.int 1, Value.int 2])) ⟨[], []⟩).2.2)) ∧
      (["x"].zip [Value.int 1, Value.int 2]).length
        = min ["x"].length [Value.int 1, Value.int 2].length ∧
      apply (fun _ env r => (.ok .unit, env, r)) (.closure ["x"] .unit [])
          ([Value.int 1, Value.int 2] ++ [Value.int 3]) ⟨[], []⟩
        = apply (fun _ env r => (.ok .unit, env, r)) (.closure ["x"] .unit [])
            [Value.int 1, Value.int 2] ⟨[], []⟩ ∧
      lookupEnv (bindAll [] (["x"].zip [Value.int 1, Value.int 2])) "y"
        = lookupEnv [] "y") :=
  ⟨⟨by decide, by decide⟩,
   c9_apply_no_arity_check (fun _ env r => (.ok .unit, env, r))
     ["x"] .unit [] [Value.int 1, Value.int 2] [Value.int 3] ⟨[], []⟩ "y"
     (by decide) (by decide)⟩

-- ===========================================================================
-- Claim C10
-- ===========================================================================

/-- Whether a value is numeric (the two cases the weight coercion keeps). -/
def isNumericW (v : Value) : Bool :=
  match v with
  | .int _ => true
  | .float _ => true
  | _ => false

/-- **C10.**  A weight expression evaluating to a non-numeric value is
not an error: `weightOf` silently coerces it to `1.0`, and a weighted
bet whose three weights are a Bool, a String and an empty List
evaluates without error, with every weight equal to `1` (total `3`). -/
theorem c10_nonnumeric_weight_is_one (v : Value) (u : ℚ)
    (hu0 : 0 ≤ u) (hu1 : u < 1) (hv : isNumericW v = false) :
    weightOf v = 1 ∧
    eval 2 (.weightedBet (.intE 10) (.boolE true) (.intE 20) (.stringE "w")
        (.intE 30) (.listE [])) [] ⟨[], [u]⟩
      = (.ok (.int (if u * 3 < 1 then 10 else if u * 3 < 2 then 20 else 30)),
         [], ⟨[], []⟩) := by
  constructor
  · cases v <;> simp_all [weightOf, isNumericW]
  · simp only [eval, eval_weighted_bet, evalSeq, weightOf, drawUniform]
    norm_num
    split_ifs <;> rfl

/-- Witness for C10 at `v = String "z"`, `u = 0`. -/
theorem c10_nonnumeric_weight_is_one_witness :
    ((0 : ℚ) ≤ 0 ∧ (0 : ℚ) < 1 ∧ isNumericW (.string "z") = false) ∧
    (weightOf (.string "z") = 1 ∧
      eval 2 (.weightedBet (.intE 10) (.boolE true) (.intE 20) (.stringE "w")
          (.intE 30) (.listE [])) [] ⟨[], [0]⟩
        = (.ok (.int (if (0 : ℚ) * 3 < 1 then 10
              else if (0 : ℚ) * 3 < 2 then 20 else 30)),
           [], ⟨[], []⟩)) :=
  ⟨⟨by decide, by decide, rfl⟩,
   c10_nonnumeric_weight_is_one (.string "z") 0 (by decide) (by decide) rfl⟩

-- ===========================================================================
-- Claim C1
-- ===========================================================================

/-- A demonstration body for the `Parallel` scoping claim:
`let y = y + 1 in y`. -/
def c1DemoBody : Expr :=
  .letE (.var "y") (.binOp .add (.var "y") (.intE 1)) (.var "y") false

/-- **C1, counterexample.**  `Let` binds into the current environment
and pops nothing: after one evaluation of `let y = y + 1 in y` the
environment carries the extra binding, so the second `Parallel`
iteration is presented a different environment than the `Parallel`
site\x27s `[y ↦ 0]` — observably, `parallel 2 (let y = y + 1 in y)`
returns `[1, 2]`, not two equal results. -/
theorem c1_counterexample :
    (eval 9 c1DemoBody [("y", .int 0)] ⟨[], []⟩).2.1
      = [("y", .int 1), ("y", .int 0)] ∧
    ([("y", Value.int 1), ("y", Value.int 0)] : Env) ≠ [("y", Value.int 0)] ∧
    eval 10 (.parallel (.intE 2) c1DemoBody) [("y", .int 0)] ⟨[], []⟩
      = (.ok (.list [.int 1, .int 2]),
         [("y", .int 2), ("y", .int 1), ("y", .int 0)], ⟨[], []⟩) ∧
    Value.int 1 ≠ Value.int 2 := by
  refine ⟨rfl, ?_, rfl, ?_⟩ <;> simp

/-- If one run of the body leaves the environment unchanged (whatever
the random source), the `Parallel` iteration loop keeps presenting that
same environment. -/
theorem parallelLoop_env_invariant (ev : Env → Rng → Res × Env × Rng)
    (env : Env) (H : ∀ rng, (ev env rng).2.1 = env) :
    ∀ (k : ℕ) (rng : Rng) (acc : List Value),
      (parallelLoop ev k env rng acc).2.1 = env := by
  intro k
  induction k with
  | zero => intro rng acc; rfl
  | succ k ih =>
      intro rng acc
      have h := H rng
      rcases hev : ev env rng with ⟨r, env', rng'⟩
      rw [hev] at h
      simp only at h
      cases r with
      | ok v =>
          have hstep : parallelLoop ev (k + 1) env rng acc
              = parallelLoop ev k env' rng' (v :: acc) := by
            simp only [parallelLoop, hev]
          rw [hstep, h]
          exact ih rng' (v :: acc)
      | timeout => simp only [parallelLoop, hev]; exact h
      | abort => simp only [parallelLoop, hev]; exact h
      | err e => simp only [parallelLoop, hev]; exact h

/-- **C1, amended.**  The trials of `Parallel` share one mutable
environment: iteration `i + 1` is presented the environment left by
iteration `i` (and `Let` bindings made inside the body persist, as the
counterexample shows).  The claim\x27s guarantee holds only under the
extra hypothesis that evaluating the body preserves the environment:
then every iteration is presented exactly the environment at the
`Parallel` site, and the whole `Parallel` evaluation leaves it
unchanged. -/
theorem c1_parallel_env (m : ℕ) (k : ℤ) (body : Expr) (env : Env) (rng : Rng)
    (H : ∀ r, (eval (m + 1) body env r).2.1 = env) :
    (∀ (j : ℕ) (r : Rng) (acc : List Value),
        (parallelLoop (fun env' rng' => eval (m + 1) body env' rng')
            j env r acc).2.1 = env) ∧
    (eval (m + 2) (.parallel (.intE k) body) env rng).2.1 = env := by
  have hloop :=
    parallelLoop_env_invariant (fun env' rng' => eval (m + 1) body env' rng')
      env H
  refine ⟨hloop, ?_⟩
  show (match eval (m + 1) (.intE k) env rng with
        | (.ok (.int kk), env, rng) =>
            parallelLoop (fun env' rng' => eval (m + 1) body env' rng')
              ((kk.emod (2 ^ 64)).toNat) env rng []
        | (.ok _, env, rng) =>
            (.err (.runtime "parallel count must be an integer"), env, rng)
        | other => other).2.1 = env
  rw [show eval (m + 1) (.intE k) env rng = (.ok (.int k), env, rng) from rfl]
  exact hloop _ rng []

/-- Witness for C1 (amended): a body (`5`) that cannot disturb the
environment. -/
theorem c1_parallel_env_witness :
    (eval 2 (.parallel (.intE 2) (.intE 5)) ([] : Env) ⟨[], []⟩).2.1
      = ([] : Env) :=
  (c1_parallel_env 0 2 (.intE 5) [] ⟨[], []⟩ (fun _ => rfl)).2

-- ===========================================================================
-- Claim C2
-- ===========================================================================

/-- **C2, counterexample.**  With weights `2, -3, 0` the total is
`-1 ≤ 0`, so the claim demands the last alternative (`3`); but with the
uniform draw `u = 0` the scaled threshold is `r = 0 < 2 = ` first
cumulative weight, and the evaluator returns the *first* alternative
(`1`). -/
theorem c2_counterexample :
    eval 3 (.weightedBet (.intE 1) (.intE 2) (.intE 2) (.intE (-3))
        (.intE 3) (.intE 0)) [] ⟨[], [0]⟩
      = (.ok (.int 1), [], ⟨[], []⟩) ∧
    ((2 : ℚ) + (-3) + 0 ≤ 0) ∧
    Value.int 1 ≠ Value.int 3 := by
  refine ⟨?_, by norm_num, by simp⟩
  simp [eval, eval_weighted_bet, weightOf, drawUniform]

/-- **C2, amended.**  Restricted to non-negative weights (the data
model\x27s invariant) the claim holds: after the six interleaved
evaluations produce the three alternatives and three coerced weights,
with `T = w0 + w1 + w2` and one uniform draw `u ∈ [0, 1)` scaled to
`r = u·T`, the evaluator returns the last alternative when `T ≤ 0`
(with non-negative weights that forces `r = 0` and all cumulative
weights `0`), and otherwise the first alternative whose cumulative
weight strictly exceeds `r`. -/
theorem c2_weighted_bet (fuel : ℕ) (v0e w0e v1e w1e v2e w2e : Expr)
    (env env0 env1 env2 env3 env4 env5 : Env)
    (rng rng0 rng1 rng2 rng3 rng4 rng5 rng6 : Rng)
    (v0 v1 v2 u0 u1 u2 : Value) (u w0 w1 w2 : ℚ)
    (h0 : eval fuel v0e env rng = (.ok v0, env0, rng0))
    (h1 : eval fuel w0e env0 rng0 = (.ok u0, env1, rng1))
    (h2 : eval fuel v1e env1 rng1 = (.ok v1, env2, rng2))
    (h3 : eval fuel w1e env2 rng2 = (.ok u1, env3, rng3))
    (h4 : eval fuel v2e env3 rng3 = (.ok v2, env4, rng4))
    (h5 : eval fuel w2e env4 rng4 = (.ok u2, env5, rng5))
    (hw0 : weightOf u0 = w0) (hw1 : weightOf u1 = w1) (hw2 : weightOf u2 = w2)
    (hd : drawUniform rng5 = (u, rng6))
    (hu0 : 0 ≤ u) (hu1 : u < 1)
    (hnn0 : 0 ≤ w0) (hnn1 : 0 ≤ w1) (hnn2 : 0 ≤ w2) :
    eval (fuel + 1) (.weightedBet v0e w0e v1e w1e v2e w2e) env rng =
      (if w0 + w1 + w2 ≤ 0 then (.ok v2, env5, rng6)
       else if u * (w0 + w1 + w2) < w0 then (.ok v0, env5, rng6)
       else if u * (w0 + w1 + w2) < w0 + w1 then (.ok v1, env5, rng6)
       else (.ok v2, env5, rng6)) := by
  show eval_weighted_bet (fun e' env' rng' => eval fuel e' env' rng')
      v0e w0e v1e w1e v2e w2e env rng = _
  simp only [eval_weighted_bet, h0, h1, h2, h3, h4, h5, hw0, hw1, hw2, hd]
  by_cases hT : w0 + w1 + w2 ≤ 0
  · have hz0 : w0 = 0 := le_antisymm (by linarith) hnn0
    have hz1 : w1 = 0 := le_antisymm (by linarith) hnn1
    have hz2 : w2 = 0 := le_antisymm (by linarith) hnn2
    subst hz0; subst hz1; subst hz2
    norm_num
  · rw [if_neg hT]
    split_ifs <;> rfl

/-- Witness for C2 (amended): weights `5, 3, 2`, draw `u = 0`. -/
theorem c2_weighted_bet_witness :
    eval 2 (.weightedBet (.intE 10) (.intE 5) (.intE 20) (.intE 3)
        (.intE 30) (.intE 2)) [] ⟨[], [0]⟩ =
      (if (5 : ℚ) + 3 + 2 ≤ 0 then (.ok (.int 30), [], ⟨[], []⟩)
       else if (0 : ℚ) * ((5 : ℚ) + 3 + 2) < 5 then (.ok (.int 10), [], ⟨[], []⟩)
       else if (0 : ℚ) * ((5 : ℚ) + 3 + 2) < (5 : ℚ) + 3 then (.ok (.int 20), [], ⟨[], []⟩)
       else (.ok (.int 30), [], ⟨[], []⟩)) :=
  c2_weighted_bet 1 (.intE 10) (.intE 5) (.intE 20) (.intE 3) (.intE 30)
    (.intE 2) [] [] [] [] [] [] [] ⟨[], [0]⟩ ⟨[], [0]⟩ ⟨[], [0]⟩
    ⟨[], [0]⟩ ⟨[], [0]⟩ ⟨[], [0]⟩ ⟨[], [0]⟩ ⟨[], []⟩
    (.int 10) (.int 20) (.int 30) (.int 5) (.int 3) (.int 2)
    0 5 3 2
    rfl rfl rfl rfl rfl rfl
    (by simp [weightOf]) (by simp [weightOf]) (by simp [weightOf])
    rfl (by decide) (by decide) (by decide) (by decide) (by decide)

-- ===========================================================================
-- Claim C7
-- ===========================================================================

/-- **C7, counterexample.**  Sanitization is not injective: the
reserved word `if` and the ordinary identifier `_if` both sanitize to
`_if`, and `a-b` collides with `a_b`.  Moreover a top-level `let`
item\x27s name bypasses the sanitizer entirely: `let if = 5` emits
`const if = 5;`, which JavaScript parses as the keyword (a syntax
error), contradicting the claim even for user-visible keyword names. -/
theorem c7_counterexample :
    sanitizeJsIdent "if" = "_if" ∧
    sanitizeJsIdent "_if" = "_if" ∧
    "if" ≠ "_if" ∧
    sanitizeJsIdent "a-b" = "a_b" ∧
    sanitizeJsIdent "a_b" = "a_b" ∧
    "a-b" ≠ "a_b" ∧
    emitJsItem (.letD "if" [] (.intE 5)) ⟨0, 0, true⟩
      = .ok ("const if = 5;\n", ⟨0, 0, true⟩) := by
  refine ⟨rfl, rfl, by decide, rfl, rfl, by decide, ?_⟩
  simp only [emitJsItem, emitJsExpr]
  rfl

/-- **C7, amended.**  For identifiers emitted through
`sanitize_js_ident` (variable references and `let`-pattern bindings,
not top-level item names) a reserved JavaScript keyword is prefixed
with `_`, and the result is never itself a reserved keyword, so it does
not parse as one.  Injectivity on all user-visible names fails (see the
counterexample). -/
theorem c7_reserved_sanitized (name : String) (ctx : JsCtx)
    (h : isJsReserved name = true) :
    sanitizeJsIdent name = "_" ++ name ∧
    isJsReserved (sanitizeJsIdent name) = false ∧
    emitJsExpr (.var name) ctx = .ok ("_" ++ name, ctx) := by
  simp only [isJsReserved] at h
  split at h
  all_goals first
    | exact absurd h (by decide)
    | exact ⟨rfl, rfl, by simp only [emitJsExpr]; rfl⟩

/-- Witness for C7 (amended) at the keyword `if`. -/
theorem c7_reserved_sanitized_witness :
    isJsReserved "if" = true ∧
    (sanitizeJsIdent "if" = "_" ++ "if" ∧
      isJsReserved (sanitizeJsIdent "if") = false ∧
      emitJsExpr (.var "if") ⟨0, 0, true⟩ = .ok ("_" ++ "if", ⟨0, 0, true⟩)) :=
  ⟨by decide, c7_reserved_sanitized "if" ⟨0, 0, true⟩ (by decide)⟩

end Betlang
